import Mathlib

/-!
A shallow embedding of the telemetry graph construction engine of the
grafana-istio-plugin backend (pkg/plugin/queryhandlers.go and
pkg/models/graph.go), together with proofs about it.

Modelling conventions:
- Go `float64` sample values, counters and thresholds are embedded as exact
  rationals (`ℚ`).  All operations the engine performs on them (addition,
  division, comparison) are exact in the source's value range, so `ℚ` is a
  faithful carrier for the arithmetic the claims mention.
- A Go `map[string]string` of labels is embedded as an association list;
  `m.Labels["k"]` (which yields `""` for an absent key in Go) is `lookupLabel`,
  and `reflect.DeepEqual` of two label maps is `labelsEqv` (order-independent
  equality of the induced finite maps).
- A Go `map[string]float64` response-code histogram is an association list with
  `lookupRC` (absent key reads as `0`, mirroring Go) and `bumpCode`
  (mirroring `m[code] += value`).
- The Go maps `edges` / `nodes` keyed by ID are embedded as lists of records
  with unique IDs, inserted in first-seen order; all facts proved about them
  are insensitive to enumeration order, matching Go's unordered map iteration.
- The unguarded byte index `code[0]` in `metricsToEdges` panics in Go on an
  empty string; the embedding returns `Option`, with `none` for the panic.
-/

namespace IstioGraph

/-- Labels of a Prometheus sample (`prometheus.Metric.Labels`,
pkg/prometheus/types.go), as an association list standing for the Go
`map[string]string`. -/
abbrev Labels := List (String × String)

/-- `ls[k]` with the Go zero-value default: `m.Labels["k"]` yields `""` when
the key is absent. -/
def lookupLabel (ls : Labels) (k : String) : String :=
  match ls.find? (fun p => p.1 == k) with
  | some p => p.2
  | none => ""

/-- `ls[k]` as an optional value (present or absent), used to state
`reflect.DeepEqual` of label maps. -/
def lookupLabelOpt (ls : Labels) (k : String) : Option String :=
  (ls.find? (fun p => p.1 == k)).map (fun p => p.2)

/-- `reflect.DeepEqual(a, b)` on two Go `map[string]string` values: the two
association lists induce the same finite map.  Checking agreement of lookups on
the keys of both sides is exactly map equality. -/
def labelsEqv (a b : Labels) : Bool :=
  a.all (fun p => lookupLabelOpt b p.1 == lookupLabelOpt a p.1) &&
  b.all (fun p => lookupLabelOpt a p.1 == lookupLabelOpt b p.1)

/-- A Prometheus sample (`prometheus.Metric`, pkg/prometheus/types.go). -/
structure Metric where
  value : ℚ
  labels : Labels
deriving Repr, DecidableEq

/-- One iteration of the loop of `deduplicateMetrics` (queryhandlers.go,
lines 708-719): append `m` to `result` unless some already-kept sample has a
`DeepEqual` label map. -/
def dedupStep (result : List Metric) (m : Metric) : List Metric :=
  if result.any (fun r => labelsEqv m.labels r.labels) then result
  else result ++ [m]

/-- `deduplicateMetrics` (queryhandlers.go, lines 705-721): remove samples
whose label map `DeepEqual`s that of an earlier sample. -/
def deduplicateMetrics (metrics : List Metric) : List Metric :=
  metrics.foldl dedupStep []

/-! ### Edge Builder (`metricsToEdges`, queryhandlers.go lines 726-883) -/

/-- Metric kind constants (`pkg/models/query.go`). -/
def MetricGRPCRequests : String := "grpcRequests"

def MetricGRPCRequestDuration : String := "grpcRequestDuration"

def MetricGRPCSentMessages : String := "grpcSentMessages"

def MetricGRPCReceivedMessages : String := "grpcReceivedMessages"

def MetricHTTPRequests : String := "httpRequests"

def MetricHTTPRequestDuration : String := "httpRequestDuration"

def MetricTCPSentBytes : String := "tcpSentBytes"

def MetricTCPReceivedBytes : String := "tcpReceivedBytes"

/-- A response-code histogram (`map[string]float64` in Go). -/
abbrev RCMap := List (String × ℚ)

/-- Reading a histogram bucket: Go map access defaults to `0`. -/
def lookupRC (m : RCMap) (code : String) : ℚ :=
  match m.find? (fun p => p.1 == code) with
  | some p => p.2
  | none => 0

/-- `m[code] += value` on a Go `map[string]float64`. -/
def bumpCode (m : RCMap) (code : String) (value : ℚ) : RCMap :=
  match m with
  | [] => [(code, value)]
  | (c, x) :: rest =>
      if c == code then (c, x + value) :: rest
      else (c, x) :: bumpCode rest code value

/-- `models.Edge` (pkg/models/graph.go, lines 18-41).  Defaults are the Go
zero values, used when a Go struct literal omits a field. -/
structure Edge where
  id : String := ""
  source : String := ""
  sourceType : String := ""
  sourceName : String := ""
  sourceNamespace : String := ""
  destination : String := ""
  destinationType : String := ""
  destinationName : String := ""
  destinationNamespace : String := ""
  destinationService : String := ""
  grpcResponseCodes : RCMap := []
  grpcRequestsSuccess : ℚ := 0
  grpcRequestsError : ℚ := 0
  grpcRequestDuration : ℚ := 0
  grpcSentMessages : ℚ := 0
  grpcReceivedMessages : ℚ := 0
  httpResponseCodes : RCMap := []
  httpRequestsSuccess : ℚ := 0
  httpRequestsError : ℚ := 0
  httpRequestDuration : ℚ := 0
  tcpSentBytes : ℚ := 0
  tcpReceivedBytes : ℚ := 0
deriving Repr, DecidableEq

/-- The temporary edges a sample synthesizes (queryhandlers.go, lines
734-813): a single direct workload→workload edge when the source or
destination workload is the "waypoint" proxy, otherwise a workload→service
edge followed by a service→workload edge.  All counters start at zero. -/
def tmpEdges (m : Metric) : List Edge :=
  if lookupLabel m.labels "source_workload" == "waypoint" ||
      lookupLabel m.labels "destination_workload" == "waypoint" then
    [{ id := "workload-" ++ lookupLabel m.labels "source_workload" ++ "-" ++
        lookupLabel m.labels "source_workload_namespace" ++ "-workload-" ++
        lookupLabel m.labels "destination_service_name" ++ "-" ++
        lookupLabel m.labels "destination_service_namespace"
       source := "Workload: " ++ lookupLabel m.labels "source_workload" ++
        " (" ++ lookupLabel m.labels "source_workload_namespace" ++ ")"
       sourceType := "Workload"
       sourceName := lookupLabel m.labels "source_workload"
       sourceNamespace := lookupLabel m.labels "source_workload_namespace"
       destination := "Workload: " ++ lookupLabel m.labels "destination_workload" ++
        " (" ++ lookupLabel m.labels "destination_workload_namespace" ++ ")"
       destinationType := "Workload"
       destinationName := lookupLabel m.labels "destination_workload"
       destinationNamespace := lookupLabel m.labels "destination_workload_namespace"
       destinationService := lookupLabel m.labels "destination_service"
       grpcResponseCodes := []
       grpcRequestsSuccess := 0
       grpcRequestsError := 0
       grpcRequestDuration := 0
       grpcSentMessages := 0
       grpcReceivedMessages := 0
       httpResponseCodes := []
       httpRequestsSuccess := 0
       httpRequestsError := 0
       httpRequestDuration := 0
       tcpSentBytes := 0
       tcpReceivedBytes := 0 }]
  else
    [{ id := "workload-" ++ lookupLabel m.labels "source_workload" ++ "-" ++
        lookupLabel m.labels "source_workload_namespace" ++ "-service-" ++
        lookupLabel m.labels "destination_service_name" ++ "-" ++
        lookupLabel m.labels "destination_service_namespace"
       source := "Workload: " ++ lookupLabel m.labels "source_workload" ++
        " (" ++ lookupLabel m.labels "source_workload_namespace" ++ ")"
       sourceType := "Workload"
       sourceName := lookupLabel m.labels "source_workload"
       sourceNamespace := lookupLabel m.labels "source_workload_namespace"
       destination := "Service: " ++ lookupLabel m.labels "destination_service_name" ++
        " (" ++ lookupLabel m.labels "destination_service_namespace" ++ ")"
       destinationType := "Service"
       destinationName := lookupLabel m.labels "destination_service_name"
       destinationNamespace := lookupLabel m.labels "destination_service_namespace"
       destinationService := lookupLabel m.labels "destination_service"
       grpcResponseCodes := []
       grpcRequestsSuccess := 0
       grpcRequestsError := 0
       grpcRequestDuration := 0
       grpcSentMessages := 0
       grpcReceivedMessages := 0
       httpResponseCodes := []
       httpRequestsSuccess := 0
       httpRequestsError := 0
       httpRequestDuration := 0
       tcpSentBytes := 0
       tcpReceivedBytes := 0 },
     { id := "service-" ++ lookupLabel m.labels "destination_service_name" ++ "-" ++
        lookupLabel m.labels "destination_service_namespace" ++ "-workload-" ++
        lookupLabel m.labels "destination_workload" ++ "-" ++
        lookupLabel m.labels "destination_workload_namespace"
       source := "Service: " ++ lookupLabel m.labels "destination_service_name" ++
        " (" ++ lookupLabel m.labels "destination_service_namespace" ++ ")"
       sourceType := "Service"
       sourceName := lookupLabel m.labels "destination_service_name"
       sourceNamespace := lookupLabel m.labels "destination_service_namespace"
       destination := "Workload: " ++ lookupLabel m.labels "destination_workload" ++
        " (" ++ lookupLabel m.labels "destination_workload_namespace" ++ ")"
       destinationType := "Workload"
       destinationName := lookupLabel m.labels "destination_workload"
       destinationNamespace := lookupLabel m.labels "destination_workload_namespace"
       destinationService := lookupLabel m.labels "destination_service"
       grpcResponseCodes := []
       grpcRequestsSuccess := 0
       grpcRequestsError := 0
       grpcRequestDuration := 0
       grpcSentMessages := 0
       grpcReceivedMessages := 0
       httpResponseCodes := []
       httpRequestsSuccess := 0
       httpRequestsError := 0
       httpRequestDuration := 0
       tcpSentBytes := 0
       tcpReceivedBytes := 0 }]

/-- The gRPC response statuses classified as errors (queryhandlers.go,
line 845): 2, 4, 12, 13, 14, 15. -/
def grpcErrorCodes : List String := ["2", "4", "12", "13", "14", "15"]

/-- The `switch m.Labels["metric"]` accumulation of one sample into one edge
(queryhandlers.go, lines 840-875).  `none` models the Go panic on
`code[0]` when an HTTP-requests sample has an empty `response_code` label;
unrecognized metric kinds leave the edge unchanged. -/
def accumulateMetric (m : Metric) (e : Edge) : Option Edge :=
  let kind := lookupLabel m.labels "metric"
  if kind == MetricGRPCRequests then
    let code := lookupLabel m.labels "grpc_response_status"
    let e := { e with grpcResponseCodes := bumpCode e.grpcResponseCodes code m.value }
    if code == "2" || code == "4" || code == "12" || code == "13" ||
        code == "14" || code == "15" then
      some { e with grpcRequestsError := e.grpcRequestsError + m.value }
    else
      some { e with grpcRequestsSuccess := e.grpcRequestsSuccess + m.value }
  else if kind == MetricGRPCRequestDuration then
    if e.destinationType == "Service" && m.value > 0 then
      some { e with grpcRequestDuration := m.value }
    else
      some e
  else if kind == MetricGRPCSentMessages then
    some { e with grpcSentMessages := e.grpcSentMessages + m.value }
  else if kind == MetricGRPCReceivedMessages then
    some { e with grpcReceivedMessages := e.grpcReceivedMessages + m.value }
  else if kind == MetricHTTPRequests then
    let code := lookupLabel m.labels "response_code"
    if code.isEmpty then
      none
    else
      let e := { e with httpResponseCodes := bumpCode e.httpResponseCodes code m.value }
      if code.front == '5' then
        some { e with httpRequestsError := e.httpRequestsError + m.value }
      else
        some { e with httpRequestsSuccess := e.httpRequestsSuccess + m.value }
  else if kind == MetricHTTPRequestDuration then
    if e.destinationType == "Service" && m.value > 0 then
      some { e with httpRequestDuration := m.value }
    else
      some e
  else if kind == MetricTCPSentBytes then
    some { e with tcpSentBytes := e.tcpSentBytes + m.value }
  else if kind == MetricTCPReceivedBytes then
    some { e with tcpReceivedBytes := e.tcpReceivedBytes + m.value }
  else
    some e

/-- Apply `accumulateMetric` to the (unique) edge with the given id
(`edges[edge.ID] = existingEdge` after the switch, queryhandlers.go
lines 839-878). -/
def updateEdgeList (es : List Edge) (id : String) (m : Metric) : Option (List Edge) :=
  match es with
  | [] => some []
  | e :: rest =>
      if e.id == id then (accumulateMetric m e).map (· :: rest)
      else (updateEdgeList rest id m).map (e :: ·)

/-- Address of a workload used by the exclusion filters
(`fmt.Sprintf("%s/%s", namespace, workload)`, queryhandlers.go line 730). -/
def filterKey (ns workload : String) : String :=
  ns ++ "/" ++ workload

/-- Whether a sample is skipped by the source/destination exclusion filters
(queryhandlers.go, lines 730-732). -/
def metricFiltered (m : Metric) (sourceFilters destinationFilters : List String) : Bool :=
  sourceFilters.contains
      (filterKey (lookupLabel m.labels "source_workload_namespace")
        (lookupLabel m.labels "source_workload")) ||
  destinationFilters.contains
      (filterKey (lookupLabel m.labels "destination_workload_namespace")
        (lookupLabel m.labels "destination_workload"))

/-- Process a single sample against the accumulated edge list: skip it when
filtered, otherwise insert its temporary edges when absent and accumulate its
value into each (queryhandlers.go, lines 729-880). -/
def processMetric (sourceFilters destinationFilters : List String)
    (edges : List Edge) (m : Metric) : Option (List Edge) :=
  if metricFiltered m sourceFilters destinationFilters then some edges
  else
    (tmpEdges m).foldlM
      (fun es e =>
        let es := if es.any (fun x => x.id == e.id) then es else es ++ [e]
        updateEdgeList es e.id m)
      edges

/-- `metricsToEdges` (queryhandlers.go, lines 726-883).  The Go `edges` map is
embedded as a list of edges with unique ids in first-insertion order; `none`
models the Go panic on an HTTP-requests sample with an empty `response_code`
label. -/
def metricsToEdges (metrics : List Metric)
    (sourceFilters destinationFilters : List String) : Option (List Edge) :=
  metrics.foldlM (processMetric sourceFilters destinationFilters) []

/-! ### Node Aggregator (`edgesToNodes`, queryhandlers.go lines 887-1000)

The Go `models.Node` struct also carries Client/Server response-code maps.
In the Go program those map fields alias the edges' maps (map assignment
copies a reference), so a value-semantics embedding cannot reproduce their
behaviour; no claim concerns them, and they are omitted here.  All scalar
(float64) statistics are embedded. -/

/-- `models.Node` (pkg/models/graph.go, lines 43-69), scalar statistics. -/
structure Node where
  id : String := ""
  type : String := ""
  name : String := ""
  Namespace : String := ""
  service : String := ""
  clientGRPCRequestsSuccess : ℚ := 0
  clientGRPCRequestsError : ℚ := 0
  clientGRPCSentMessages : ℚ := 0
  clientGRPCReceivedMessages : ℚ := 0
  clientHTTPRequestsSuccess : ℚ := 0
  clientHTTPRequestsError : ℚ := 0
  clientTCPSentBytes : ℚ := 0
  clientTCPReceivedBytes : ℚ := 0
  serverGRPCRequestsSuccess : ℚ := 0
  serverGRPCRequestsError : ℚ := 0
  serverGRPCSentMessages : ℚ := 0
  serverGRPCReceivedMessages : ℚ := 0
  serverHTTPRequestsSuccess : ℚ := 0
  serverHTTPRequestsError : ℚ := 0
  serverTCPSentBytes : ℚ := 0
  serverTCPReceivedBytes : ℚ := 0
deriving Repr, DecidableEq

/-- The source-side temporary node of an edge (queryhandlers.go, lines
900-925): the edge's counters become client statistics, server statistics are
zero. -/
def sourceNodeOfEdge (e : Edge) : Node :=
  { id := e.source
    type := e.sourceType
    name := e.sourceName
    Namespace := e.sourceNamespace
    service := ""
    clientGRPCRequestsSuccess := e.grpcRequestsSuccess
    clientGRPCRequestsError := e.grpcRequestsError
    clientGRPCSentMessages := e.grpcSentMessages
    clientGRPCReceivedMessages := e.grpcReceivedMessages
    clientHTTPRequestsSuccess := e.httpRequestsSuccess
    clientHTTPRequestsError := e.httpRequestsError
    clientTCPSentBytes := e.tcpSentBytes
    clientTCPReceivedBytes := e.tcpReceivedBytes
    serverGRPCRequestsSuccess := 0
    serverGRPCRequestsError := 0
    serverGRPCSentMessages := 0
    serverGRPCReceivedMessages := 0
    serverHTTPRequestsSuccess := 0
    serverHTTPRequestsError := 0
    serverTCPSentBytes := 0
    serverTCPReceivedBytes := 0 }

/-- The destination-side temporary node of an edge (queryhandlers.go, lines
926-952): the edge's counters become server statistics, client statistics are
zero. -/
def destNodeOfEdge (e : Edge) : Node :=
  { id := e.destination
    type := e.destinationType
    name := e.destinationName
    Namespace := e.destinationNamespace
    service := e.destinationService
    clientGRPCRequestsSuccess := 0
    clientGRPCRequestsError := 0
    clientGRPCSentMessages := 0
    clientGRPCReceivedMessages := 0
    clientHTTPRequestsSuccess := 0
    clientHTTPRequestsError := 0
    clientTCPSentBytes := 0
    clientTCPReceivedBytes := 0
    serverGRPCRequestsSuccess := e.grpcRequestsSuccess
    serverGRPCRequestsError := e.grpcRequestsError
    serverGRPCSentMessages := e.grpcSentMessages
    serverGRPCReceivedMessages := e.grpcReceivedMessages
    serverHTTPRequestsSuccess := e.httpRequestsSuccess
    serverHTTPRequestsError := e.httpRequestsError
    serverTCPSentBytes := e.tcpSentBytes
    serverTCPReceivedBytes := e.tcpReceivedBytes }

/-- Merging a temporary node into an existing node with the same id
(queryhandlers.go, lines 963-994): every scalar statistic is summed
field-by-field; the identity fields of the existing node are kept. -/
def mergeNode (existing n : Node) : Node :=
  { existing with
    clientGRPCRequestsSuccess :=
      existing.clientGRPCRequestsSuccess + n.clientGRPCRequestsSuccess
    clientGRPCRequestsError :=
      existing.clientGRPCRequestsError + n.clientGRPCRequestsError
    clientGRPCSentMessages :=
      existing.clientGRPCSentMessages + n.clientGRPCSentMessages
    clientGRPCReceivedMessages :=
      existing.clientGRPCReceivedMessages + n.clientGRPCReceivedMessages
    clientHTTPRequestsSuccess :=
      existing.clientHTTPRequestsSuccess + n.clientHTTPRequestsSuccess
    clientHTTPRequestsError :=
      existing.clientHTTPRequestsError + n.clientHTTPRequestsError
    clientTCPSentBytes := existing.clientTCPSentBytes + n.clientTCPSentBytes
    clientTCPReceivedBytes :=
      existing.clientTCPReceivedBytes + n.clientTCPReceivedBytes
    serverGRPCRequestsSuccess :=
      existing.serverGRPCRequestsSuccess + n.serverGRPCRequestsSuccess
    serverGRPCRequestsError :=
      existing.serverGRPCRequestsError + n.serverGRPCRequestsError
    serverGRPCSentMessages :=
      existing.serverGRPCSentMessages + n.serverGRPCSentMessages
    serverGRPCReceivedMessages :=
      existing.serverGRPCReceivedMessages + n.serverGRPCReceivedMessages
    serverHTTPRequestsSuccess :=
      existing.serverHTTPRequestsSuccess + n.serverHTTPRequestsSuccess
    serverHTTPRequestsError :=
      existing.serverHTTPRequestsError + n.serverHTTPRequestsError
    serverTCPSentBytes := existing.serverTCPSentBytes + n.serverTCPSentBytes
    serverTCPReceivedBytes :=
      existing.serverTCPReceivedBytes + n.serverTCPReceivedBytes }

/-- Merge a temporary node into the (unique) list entry with its id. -/
def mergeIntoNodes (nodes : List Node) (n : Node) : List Node :=
  match nodes with
  | [] => []
  | x :: rest =>
      if x.id == n.id then mergeNode x n :: rest
      else x :: mergeIntoNodes rest n

/-- Insert one temporary node into the nodes map (queryhandlers.go, lines
954-996): append it when its id is new, otherwise merge it into the existing
entry. -/
def insertNode (nodes : List Node) (n : Node) : List Node :=
  if nodes.any (fun x => x.id == n.id) then mergeIntoNodes nodes n
  else nodes ++ [n]

/-- `edgesToNodes` (queryhandlers.go, lines 887-1000): every edge contributes
its counters to its source node as client statistics and to its destination
node as server statistics.  The Go `nodes` map is embedded as a list with
unique ids in first-insertion order. -/
def edgesToNodes (edges : List Edge) : List Node :=
  edges.foldl
    (fun nodes e => insertNode (insertNode nodes (sourceNodeOfEdge e)) (destNodeOfEdge e))
    []

/-- Find the node with the given id. -/
def lookupNode (nodes : List Node) (id : String) : Option Node :=
  nodes.find? (fun x => x.id == id)

/-! ### Stat Projector (`getEdgeField` / `getNodeField`, queryhandlers.go
lines 1004-1286) -/

/-- Two-digit zero padding of the fractional part. -/
def pad2 (n : ℕ) : String :=
  if n < 10 then "0" ++ toString n else toString n

/-- `fmt.Sprintf("%.2f", q)` for a nonnegative exact rational: round half
away from zero to hundredths.  Agrees with Go's float64 formatting on every
non-tie value, and on every value appearing in the claims. -/
def fmt2Nonneg (q : ℚ) : String :=
  let n : ℕ := (⌊q * 100 + 1 / 2⌋).toNat
  toString (n / 100) ++ "." ++ pad2 (n % 100)

/-- `fmt.Sprintf("%.2f", q)` for an exact rational. -/
def fmt2 (q : ℚ) : String :=
  if q < 0 then "-" ++ fmt2Nonneg (-q) else fmt2Nonneg q

/-- The red "critical" color (queryhandlers.go, e.g. line 1079). -/
def colorCritical : String := "#f2495c"

/-- The yellow "warning" color (line 1081). -/
def colorWarning : String := "#fade2a"

/-- The green "healthy" color (line 1083). -/
def colorHealthy : String := "#73bf69"

/-- The blue color for TCP-only traffic (line 1114). -/
def colorTCP : String := "#5794f2"

/-- The gray color for no traffic (line 1116). -/
def colorIdle : String := "#ccccdc"

/-- `models.Field` (pkg/models/graph.go, lines 71-88).  Defaults are the Go
zero values. -/
structure Field where
  id : String := ""
  source : String := ""
  destination : String := ""
  mainStat : List String := []
  secondaryStat : List String := []
  color : String := ""
  detailsGRPCRate : List String := []
  detailsGRPCErr : List String := []
  detailsGRPCDuration : List String := []
  detailsGRPCSentMessages : List String := []
  detailsGRPCReceivedMessages : List String := []
  detailsHTTPRate : List String := []
  detailsHTTPErr : List String := []
  detailsHTTPDuration : List String := []
  detailsTCPSentBytes : List String := []
  detailsTCPReceivedBytes : List String := []
deriving Repr, DecidableEq

/-- `getEdgeField` (queryhandlers.go, lines 1004-1120).  The warning and
error thresholds are the Datasource's `istioWarningThreshold` and
`istioErrorThreshold` settings, passed as parameters. -/
def getEdgeField (warningThreshold errorThreshold : ℚ) (edge : Edge)
    (interval : ℚ) : Field :=
  let grpcErrRate : ℚ :=
    if edge.grpcRequestsError > 0 then
      edge.grpcRequestsError /
        (edge.grpcRequestsSuccess + edge.grpcRequestsError) * 100
    else 0
  let httpErrRate : ℚ :=
    if edge.httpRequestsError > 0 then
      edge.httpRequestsError /
        (edge.httpRequestsSuccess + edge.httpRequestsError) * 100
    else 0
  let grpcRateStr :=
    fmt2 ((edge.grpcRequestsSuccess + edge.grpcRequestsError) / interval) ++ "rps"
  let httpRateStr :=
    fmt2 ((edge.httpRequestsSuccess + edge.httpRequestsError) / interval) ++ "rps"
  let grpcErrStr := fmt2 grpcErrRate ++ "%"
  let httpErrStr := fmt2 httpErrRate ++ "%"
  let grpcDurationDetail :=
    if edge.grpcRequestDuration > 0 then [fmt2 edge.grpcRequestDuration ++ "ms"]
    else ["-"]
  let httpDurationDetail :=
    if edge.httpRequestDuration > 0 then [fmt2 edge.httpRequestDuration ++ "ms"]
    else ["-"]
  let tcpStr :=
    fmt2 ((edge.tcpSentBytes + edge.tcpReceivedBytes) / interval) ++ "bps"
  let base : Field :=
    { id := edge.id
      source := edge.source
      destination := edge.destination
      detailsGRPCRate := [grpcRateStr]
      detailsGRPCErr := [grpcErrStr]
      detailsGRPCDuration := grpcDurationDetail
      detailsGRPCSentMessages := [fmt2 (edge.grpcSentMessages / interval) ++ "mps"]
      detailsGRPCReceivedMessages :=
        [fmt2 (edge.grpcReceivedMessages / interval) ++ "mps"]
      detailsHTTPRate := [httpRateStr]
      detailsHTTPErr := [httpErrStr]
      detailsHTTPDuration := httpDurationDetail
      detailsTCPSentBytes := [fmt2 (edge.tcpSentBytes / interval) ++ "bps"]
      detailsTCPReceivedBytes :=
        [fmt2 (edge.tcpReceivedBytes / interval) ++ "bps"] }
  if edge.httpRequestsSuccess + edge.httpRequestsError >
      edge.grpcRequestsSuccess + edge.grpcRequestsError then
    { base with
      mainStat := [httpRateStr] ++ (if httpErrRate > 0 then [httpErrStr] else [])
      color :=
        if httpErrRate ≥ errorThreshold then colorCritical
        else if httpErrRate > warningThreshold then colorWarning
        else colorHealthy
      secondaryStat :=
        (if edge.httpRequestDuration > 0 then httpDurationDetail else []) ++
        (if edge.tcpSentBytes + edge.tcpReceivedBytes > 0 then [tcpStr] else []) }
  else if edge.grpcRequestsSuccess + edge.grpcRequestsError > 0 then
    { base with
      mainStat := [grpcRateStr] ++ (if grpcErrRate > 0 then [grpcErrStr] else [])
      color :=
        if grpcErrRate ≥ errorThreshold then colorCritical
        else if grpcErrRate > warningThreshold then colorWarning
        else colorHealthy
      secondaryStat :=
        (if edge.grpcRequestDuration > 0 then grpcDurationDetail else []) ++
        (if edge.tcpSentBytes + edge.tcpReceivedBytes > 0 then [tcpStr] else []) }
  else if edge.tcpSentBytes + edge.tcpReceivedBytes > 0 then
    { base with mainStat := [tcpStr], color := colorTCP }
  else
    { base with color := colorIdle }

/-- `getNodeField` (queryhandlers.go, lines 1124-1286). -/
def getNodeField (warningThreshold errorThreshold : ℚ) (node : Node)
    (interval : ℚ) : Field :=
  if node.type == "Service" then
    -- A service node is projected through getEdgeField over an edge-shaped
    -- record carrying only its server statistics (lines 1130-1144); omitted
    -- Go fields take their zero values.
    getEdgeField warningThreshold errorThreshold
      { id := node.id
        source := node.id
        destination := node.id
        grpcRequestsSuccess := node.serverGRPCRequestsSuccess
        grpcRequestsError := node.serverGRPCRequestsError
        grpcSentMessages := node.serverGRPCSentMessages
        grpcReceivedMessages := node.serverGRPCReceivedMessages
        httpRequestsSuccess := node.serverHTTPRequestsSuccess
        httpRequestsError := node.serverHTTPRequestsError
        tcpSentBytes := node.serverTCPSentBytes
        tcpReceivedBytes := node.serverTCPReceivedBytes }
      interval
  else
    -- The four-way case splits of lines 1155-1171 and 1179-1195, computing
    -- the server and client error rates of each protocol.
    let grpcRates : ℚ × ℚ :=
      if node.serverGRPCRequestsError > 0 ∧ node.clientGRPCRequestsError > 0 then
        (node.serverGRPCRequestsError /
            (node.serverGRPCRequestsSuccess + node.serverGRPCRequestsError) * 100,
         node.clientGRPCRequestsError /
            (node.clientGRPCRequestsSuccess + node.clientGRPCRequestsError) * 100)
      else if node.serverGRPCRequestsError > 0 ∧ node.clientGRPCRequestsError = 0 then
        (node.serverGRPCRequestsError /
            (node.serverGRPCRequestsSuccess + node.serverGRPCRequestsError) * 100, 0)
      else if node.serverGRPCRequestsError = 0 ∧ node.clientGRPCRequestsError > 0 then
        (0, node.clientGRPCRequestsError /
            (node.clientGRPCRequestsSuccess + node.clientGRPCRequestsError) * 100)
      else (0, 0)
    let grpcServerErrRate := grpcRates.1
    let grpcClientErrRate := grpcRates.2
    let httpRates : ℚ × ℚ :=
      if node.serverHTTPRequestsError > 0 ∧ node.clientHTTPRequestsError > 0 then
        (node.serverHTTPRequestsError /
            (node.serverHTTPRequestsSuccess + node.serverHTTPRequestsError) * 100,
         node.clientHTTPRequestsError /
            (node.clientHTTPRequestsSuccess + node.clientHTTPRequestsError) * 100)
      else if node.serverHTTPRequestsError > 0 ∧ node.clientHTTPRequestsError = 0 then
        (node.serverHTTPRequestsError /
            (node.serverHTTPRequestsSuccess + node.serverHTTPRequestsError) * 100, 0)
      else if node.serverHTTPRequestsError = 0 ∧ node.clientHTTPRequestsError > 0 then
        (0, node.clientHTTPRequestsError /
            (node.clientHTTPRequestsSuccess + node.clientHTTPRequestsError) * 100)
      else (0, 0)
    let httpServerErrRate := httpRates.1
    let httpClientErrRate := httpRates.2
    -- Detail strings, server side first, then client side (the Go code reads
    -- them back through the [0] and [1] indices).
    let grpcServerRateStr :=
      fmt2 ((node.serverGRPCRequestsSuccess + node.serverGRPCRequestsError) /
        interval) ++ "rps"
    let grpcClientRateStr :=
      fmt2 ((node.clientGRPCRequestsSuccess + node.clientGRPCRequestsError) /
        interval) ++ "rps"
    let httpServerRateStr :=
      fmt2 ((node.serverHTTPRequestsSuccess + node.serverHTTPRequestsError) /
        interval) ++ "rps"
    let httpClientRateStr :=
      fmt2 ((node.clientHTTPRequestsSuccess + node.clientHTTPRequestsError) /
        interval) ++ "rps"
    let grpcServerErrStr := fmt2 grpcServerErrRate ++ "%"
    let grpcClientErrStr := fmt2 grpcClientErrRate ++ "%"
    let httpServerErrStr := fmt2 httpServerErrRate ++ "%"
    let httpClientErrStr := fmt2 httpClientErrRate ++ "%"
    let serverTCPStr :=
      fmt2 ((node.serverTCPSentBytes + node.serverTCPReceivedBytes) / interval) ++
        "bps"
    let clientTCPStr :=
      fmt2 ((node.clientTCPSentBytes + node.clientTCPReceivedBytes) / interval) ++
        "bps"
    let base : Field :=
      { id := node.id
        detailsGRPCRate := [grpcServerRateStr, grpcClientRateStr]
        detailsGRPCErr := [grpcServerErrStr, grpcClientErrStr]
        detailsGRPCSentMessages :=
          [fmt2 (node.serverGRPCSentMessages / interval) ++ "mps",
           fmt2 (node.clientGRPCSentMessages / interval) ++ "mps"]
        detailsGRPCReceivedMessages :=
          [fmt2 (node.serverGRPCReceivedMessages / interval) ++ "mps",
           fmt2 (node.clientGRPCReceivedMessages / interval) ++ "mps"]
        detailsHTTPRate := [httpServerRateStr, httpClientRateStr]
        detailsHTTPErr := [httpServerErrStr, httpClientErrStr]
        detailsTCPSentBytes :=
          [fmt2 (node.serverTCPSentBytes / interval) ++ "bps",
           fmt2 (node.clientTCPSentBytes / interval) ++ "bps"]
        detailsTCPReceivedBytes :=
          [fmt2 (node.serverTCPReceivedBytes / interval) ++ "bps",
           fmt2 (node.clientTCPReceivedBytes / interval) ++ "bps"] }
    -- The cascade of lines 1207-1283: server HTTP vs gRPC, then client HTTP
    -- vs gRPC, then server TCP, then client TCP, else idle.
    if node.serverHTTPRequestsSuccess + node.serverHTTPRequestsError >
        node.serverGRPCRequestsSuccess + node.serverGRPCRequestsError then
      { base with
        mainStat := [httpServerRateStr] ++
          (if httpServerErrRate > 0 then [httpServerErrStr] else [])
        color :=
          if httpServerErrRate ≥ errorThreshold then colorCritical
          else if httpServerErrRate > warningThreshold then colorWarning
          else colorHealthy
        secondaryStat :=
          if node.serverTCPSentBytes + node.serverTCPReceivedBytes > 0 then
            [serverTCPStr]
          else [] }
    else if node.serverGRPCRequestsSuccess + node.serverGRPCRequestsError > 0 then
      { base with
        mainStat := [grpcServerRateStr] ++
          (if grpcServerErrRate > 0 then [grpcServerErrStr] else [])
        color :=
          if grpcServerErrRate ≥ errorThreshold then colorCritical
          else if grpcServerErrRate > warningThreshold then colorWarning
          else colorHealthy
        secondaryStat :=
          if node.serverTCPSentBytes + node.serverTCPReceivedBytes > 0 then
            [serverTCPStr]
          else [] }
    else if node.clientHTTPRequestsSuccess + node.clientHTTPRequestsError >
        node.clientGRPCRequestsSuccess + node.clientGRPCRequestsError then
      { base with
        mainStat := [httpClientRateStr] ++
          (if httpClientErrRate > 0 then [httpClientErrStr] else [])
        color :=
          if httpClientErrRate ≥ errorThreshold then colorCritical
          else if httpClientErrRate > warningThreshold then colorWarning
          else colorHealthy
        secondaryStat :=
          if node.clientTCPSentBytes + node.clientTCPReceivedBytes > 0 then
            [clientTCPStr]
          else [] }
    else if node.clientGRPCRequestsSuccess + node.clientGRPCRequestsError > 0 then
      { base with
        mainStat := [grpcClientRateStr] ++
          (if grpcClientErrRate > 0 then [grpcClientErrStr] else [])
        color :=
          if grpcClientErrRate ≥ errorThreshold then colorCritical
          else if grpcClientErrRate > warningThreshold then colorWarning
          else colorHealthy
        secondaryStat :=
          if node.clientTCPSentBytes + node.clientTCPReceivedBytes > 0 then
            [clientTCPStr]
          else [] }
    else if node.serverTCPSentBytes + node.serverTCPReceivedBytes > 0 then
      { base with mainStat := [serverTCPStr], color := colorTCP }
    else if node.clientTCPSentBytes + node.clientTCPReceivedBytes > 0 then
      { base with mainStat := [clientTCPStr], color := colorTCP }
    else
      { base with color := colorIdle }

/-! ### Graph Assembler (`handleGraph`, queryhandlers.go lines 429-610)

The concurrent fan-out (one goroutine per requested metric kind, each fetching
"entity as destination" then "entity as source" samples) is abstracted to the
state it leaves at the join barrier (`metricsWG.Wait()`, line 486): a list of
per-task outcomes in task order.  Each task that fails records one error and
appends no samples (the goroutine returns before the append, lines 453-476). -/

/-- The outcome of one per-metric fetch task of `handleGraph` (queryhandlers.go,
lines 447-484): both fetches succeeded, the destination fetch failed, or the
destination fetch succeeded and the source fetch failed. -/
inductive FetchResult where
  | ok (destinationMetrics sourceMetrics : List Metric)
  | destinationErr (err : String)
  | sourceErr (destinationMetrics : List Metric) (err : String)
deriving Repr, DecidableEq

/-- The errors a task appends to the shared error list. -/
def taskErrors : FetchResult → List String
  | .ok _ _ => []
  | .destinationErr e => [e]
  | .sourceErr _ e => [e]

/-- The samples a task appends to the shared sample list: destination samples
then source samples on success, nothing when either fetch failed (the
goroutine returns before appending). -/
def taskMetrics : FetchResult → List Metric
  | .ok d s => d ++ s
  | .destinationErr _ => []
  | .sourceErr _ _ => []

/-- The data response of a graph build: either an error response carrying no
frames (`backend.ErrorResponseWithErrorSource`, line 491) or the projected
edge and node frames (lines 501-609). -/
structure GraphResponse where
  errorMsg : Option String := none
  edgeFields : List Field := []
  nodeFields : List Field := []
deriving Repr, DecidableEq

/-- `handleGraph` from the join barrier on (queryhandlers.go, lines 486-609):
abort with the first recorded error when any task failed, otherwise
deduplicate, build edges, build nodes and project both.  `none` models the Go
panic inherited from `metricsToEdges`. -/
def handleGraph (warningThreshold errorThreshold : ℚ)
    (results : List FetchResult) (sourceFilters destinationFilters : List String)
    (interval : ℚ) : Option GraphResponse :=
  let errors := (results.map taskErrors).flatten
  let prometheusMetrics := (results.map taskMetrics).flatten
  match errors with
  | e :: _ => some { errorMsg := some e }
  | [] =>
      match metricsToEdges (deduplicateMetrics prometheusMetrics)
          sourceFilters destinationFilters with
      | none => none
      | some edges =>
          some { errorMsg := none
                 edgeFields :=
                   edges.map (fun e => getEdgeField warningThreshold errorThreshold e interval)
                 nodeFields :=
                   (edgesToNodes edges).map
                     (fun n => getNodeField warningThreshold errorThreshold n interval) }

theorem lookupLabelOpt_eq_some {ls : Labels} {k v : String}
    (h : lookupLabelOpt ls k = some v) : ∃ p ∈ ls, p.1 = k := by
  unfold lookupLabelOpt at h
  rcases hf : ls.find? (fun p => p.1 == k) with _ | p
  · rw [hf] at h; simp at h
  · exact ⟨p, List.mem_of_find?_eq_some hf, by
      have := List.find?_some hf; simpa using this⟩

/-- `labelsEqv` is precisely agreement of lookups at every key. -/
theorem labelsEqv_iff (a b : Labels) :
    labelsEqv a b = true ↔ ∀ k, lookupLabelOpt a k = lookupLabelOpt b k := by
  constructor
  · intro h k
    rw [labelsEqv, Bool.and_eq_true, List.all_eq_true, List.all_eq_true] at h
    rcases ha : lookupLabelOpt a k with _ | v
    · rcases hb : lookupLabelOpt b k with _ | w
      · rfl
      · obtain ⟨p, hp, hkp⟩ := lookupLabelOpt_eq_some hb
        have := h.2 p hp
        rw [hkp] at this
        rw [ha, hb] at this
        simpa using this
    · obtain ⟨p, hp, hkp⟩ := lookupLabelOpt_eq_some ha
      have := h.1 p hp
      rw [hkp] at this
      rw [ha] at this
      have : lookupLabelOpt b k = some v := by
        cases hb : lookupLabelOpt b k <;> rw [hb] at this <;> simpa using this
      rw [this]
  · intro h
    rw [labelsEqv, Bool.and_eq_true, List.all_eq_true, List.all_eq_true]
    constructor
    · intro p _; rw [h p.1]; simp
    · intro p _; rw [h p.1]; simp

theorem labelsEqv_refl (a : Labels) : labelsEqv a a = true := by
  rw [labelsEqv_iff]; intro _; rfl

theorem labelsEqv_symm {a b : Labels} (h : labelsEqv a b = true) :
    labelsEqv b a = true := by
  rw [labelsEqv_iff] at *
  intro k; exact (h k).symm

theorem labelsEqv_trans {a b c : Labels} (hab : labelsEqv a b = true)
    (hbc : labelsEqv b c = true) : labelsEqv a c = true := by
  rw [labelsEqv_iff] at *
  intro k; exact (hab k).trans (hbc k)

/-- The accumulator only grows while the dedup loop runs. -/
theorem subset_foldl_dedupStep (ms : List Metric) (acc : List Metric) :
    acc ⊆ ms.foldl dedupStep acc := by
  induction ms generalizing acc with
  | nil => exact fun _ h => h
  | cons m rest ih =>
      intro x hx
      refine ih (dedupStep acc m) ?_
      unfold dedupStep
      split
      · exact hx
      · exact List.mem_append_left _ hx

/-- Every element the dedup loop emits was either already in the accumulator,
or is the first sample of the input whose labels are `DeepEqual` to its own
(and is not equivalent to anything in the accumulator). -/
theorem foldl_dedupStep_first (ms : List Metric) :
    ∀ (acc : List Metric), ∀ x ∈ ms.foldl dedupStep acc,
      x ∈ acc ∨
        ((∀ a ∈ acc, ¬ labelsEqv a.labels x.labels = true) ∧
          ms.find? (fun y => labelsEqv y.labels x.labels) = some x) := by
  induction ms with
  | nil => intro acc x hx; exact Or.inl hx
  | cons m rest ih =>
      intro acc x hx
      simp only [List.foldl_cons] at hx
      by_cases hdup : acc.any (fun r => labelsEqv m.labels r.labels) = true
      · have hstep : dedupStep acc m = acc := by
          unfold dedupStep; rw [if_pos hdup]
        rw [hstep] at hx
        rcases ih acc x hx with h | ⟨hnone, hfind⟩
        · exact Or.inl h
        · refine Or.inr ⟨hnone, ?_⟩
          have hmx : ¬ labelsEqv m.labels x.labels = true := by
            intro hmxe
            rw [List.any_eq_true] at hdup
            obtain ⟨r, hr, hrm⟩ := hdup
            exact hnone r hr (labelsEqv_trans (labelsEqv_symm hrm) hmxe)
          rw [Bool.not_eq_true] at hmx
          simp only [List.find?_cons, hmx]
          exact hfind
      · have hstep : dedupStep acc m = acc ++ [m] := by
          unfold dedupStep; rw [if_neg hdup]
        rw [hstep] at hx
        rw [List.any_eq_true] at hdup
        push_neg at hdup
        rcases ih (acc ++ [m]) x hx with h | ⟨hnone, hfind⟩
        · rcases List.mem_append.mp h with h | h
          · exact Or.inl h
          · have hxm : x = m := by simpa using h
            subst hxm
            refine Or.inr ⟨fun a ha hax => hdup a ha (labelsEqv_symm hax), ?_⟩
            simp only [List.find?_cons, labelsEqv_refl]
        · refine Or.inr ⟨fun a ha => hnone a (List.mem_append_left _ ha), ?_⟩
          have hmx : ¬ labelsEqv m.labels x.labels = true :=
            hnone m (List.mem_append_right _ (by simp))
          rw [Bool.not_eq_true] at hmx
          simp only [List.find?_cons, hmx]
          exact hfind

/-- The dedup loop keeps the accumulator free of `DeepEqual` label pairs. -/
theorem foldl_dedupStep_pairwise (ms : List Metric) :
    ∀ (acc : List Metric),
      acc.Pairwise (fun a b => ¬ labelsEqv a.labels b.labels = true) →
      (ms.foldl dedupStep acc).Pairwise
        (fun a b => ¬ labelsEqv a.labels b.labels = true) := by
  induction ms with
  | nil => intro acc h; exact h
  | cons m rest ih =>
      intro acc h
      simp only [List.foldl_cons]
      refine ih (dedupStep acc m) ?_
      unfold dedupStep
      split
      · exact h
      · rename_i hdup
        rw [List.any_eq_true] at hdup
        push_neg at hdup
        rw [List.pairwise_append]
        exact ⟨h, by simp, by
          intro a ha b hb
          have hbm : b = m := by simpa using hb
          subst hbm
          exact fun hab => hdup a ha (labelsEqv_symm hab)⟩

/-- Running the dedup loop over an input with no `DeepEqual` label pairs
changes nothing. -/
theorem foldl_dedupStep_clean (ms : List Metric) :
    ∀ (acc : List Metric),
      (acc ++ ms).Pairwise (fun a b => ¬ labelsEqv a.labels b.labels = true) →
      ms.foldl dedupStep acc = acc ++ ms := by
  induction ms with
  | nil => intro acc _; simp
  | cons m rest ih =>
      intro acc h
      have hstep : dedupStep acc m = acc ++ [m] := by
        unfold dedupStep
        rw [if_neg]
        rw [List.any_eq_true]
        push_neg
        intro r hr hrm
        rw [List.pairwise_append] at h
        exact h.2.2 r hr m (by simp) (labelsEqv_symm hrm)
      simp only [List.foldl_cons, hstep]
      have h' : ((acc ++ [m]) ++ rest).Pairwise
          (fun a b => ¬ labelsEqv a.labels b.labels = true) := by
        rw [List.append_assoc]
        simpa using h
      rw [ih (acc ++ [m]) h', List.append_assoc]
      rfl

/-- Every input sample has a representative with `DeepEqual` labels in the
dedup output. -/
theorem foldl_dedupStep_represented (ms : List Metric) :
    ∀ (acc : List Metric), ∀ x ∈ ms,
      (∀ a ∈ acc, ¬ labelsEqv a.labels x.labels = true) →
      ∃ y ∈ ms.foldl dedupStep acc, labelsEqv y.labels x.labels = true := by
  induction ms with
  | nil => intro acc x hx; simp at hx
  | cons m rest ih =>
      intro acc x hx hacc
      simp only [List.foldl_cons]
      rcases List.mem_cons.mp hx with hxm | hxr
      · subst hxm
        by_cases hdup : acc.any (fun r => labelsEqv x.labels r.labels) = true
        · have hstep : dedupStep acc x = acc := by
            unfold dedupStep; rw [if_pos hdup]
          rw [List.any_eq_true] at hdup
          obtain ⟨r, hr, hrx⟩ := hdup
          exact ⟨r, subset_foldl_dedupStep rest (dedupStep acc x)
            (by rw [hstep]; exact hr), labelsEqv_symm hrx⟩
        · have hstep : dedupStep acc x = acc ++ [x] := by
            unfold dedupStep; rw [if_neg hdup]
          exact ⟨x, subset_foldl_dedupStep rest (dedupStep acc x)
            (by rw [hstep]; exact List.mem_append_right _ (by simp)),
            labelsEqv_refl x.labels⟩
      · by_cases hmx : labelsEqv m.labels x.labels = true
        · by_cases hdup : acc.any (fun r => labelsEqv m.labels r.labels) = true
          · have hstep : dedupStep acc m = acc := by
              unfold dedupStep; rw [if_pos hdup]
            rw [List.any_eq_true] at hdup
            obtain ⟨r, hr, hrm⟩ := hdup
            exact ⟨r, subset_foldl_dedupStep rest (dedupStep acc m)
              (by rw [hstep]; exact hr),
              labelsEqv_trans (labelsEqv_symm hrm) hmx⟩
          · have hstep : dedupStep acc m = acc ++ [m] := by
              unfold dedupStep; rw [if_neg hdup]
            exact ⟨m, subset_foldl_dedupStep rest (dedupStep acc m)
              (by rw [hstep]; exact List.mem_append_right _ (by simp)), hmx⟩
        · refine ih (dedupStep acc m) x hxr ?_
          intro a ha
          unfold dedupStep at ha
          split at ha
          · exact hacc a ha
          · rcases List.mem_append.mp ha with ha | ha
            · exact hacc a ha
            · have ham : a = m := by simpa using ha
              subst ham; exact hmx

/-- Claim C7: the Deduplicator is idempotent, each survivor is the first input
sample carrying its label map, and every input sample's label map is
represented in the output. -/
theorem deduplicateMetrics_idempotent_first (ms : List Metric) :
    deduplicateMetrics (deduplicateMetrics ms) = deduplicateMetrics ms ∧
    (∀ x ∈ deduplicateMetrics ms,
      ms.find? (fun y => labelsEqv y.labels x.labels) = some x) ∧
    (∀ x ∈ ms, ∃ y ∈ deduplicateMetrics ms, labelsEqv y.labels x.labels = true) := by
  refine ⟨?_, ?_, ?_⟩
  · have hpw := foldl_dedupStep_pairwise ms [] (by simp)
    have := foldl_dedupStep_clean (deduplicateMetrics ms) [] (by simpa using hpw)
    simpa [deduplicateMetrics] using this
  · intro x hx
    rcases foldl_dedupStep_first ms [] x hx with h | ⟨_, hfind⟩
    · simp at h
    · exact hfind
  · intro x hx
    exact foldl_dedupStep_represented ms [] x hx (by simp)


/-- The counter fields of an edge: the accumulated histograms, request
counts, message counts and byte counts — everything except the identity
fields and the last-seen duration values (the spec's data model separates
"running totals" from "last-seen duration values"). -/
def edgeCounters (e : Edge) : RCMap × ℚ × ℚ × ℚ × ℚ × RCMap × ℚ × ℚ × ℚ × ℚ :=
  (e.grpcResponseCodes, e.grpcRequestsSuccess, e.grpcRequestsError,
   e.grpcSentMessages, e.grpcReceivedMessages,
   e.httpResponseCodes, e.httpRequestsSuccess, e.httpRequestsError,
   e.tcpSentBytes, e.tcpReceivedBytes)

/-- The spec's end-to-end scenario, first sample: HTTP requests,
`response_code=200`, value 10, `source_workload=web (ns1)` →
`destination_service_name=api (ns1)`. -/
def c8m200 : Metric :=
  ⟨10, [("metric", "httpRequests"), ("source_workload", "web"),
    ("source_workload_namespace", "ns1"), ("destination_service_name", "api"),
    ("destination_service_namespace", "ns1"),
    ("destination_workload", "api-v1"),
    ("destination_workload_namespace", "ns1"),
    ("destination_service", "api.ns1.svc"), ("response_code", "200")]⟩

/-- The spec's end-to-end scenario, second sample: same endpoints,
`response_code=503`, value 2. -/
def c8m503 : Metric :=
  ⟨2, [("metric", "httpRequests"), ("source_workload", "web"),
    ("source_workload_namespace", "ns1"), ("destination_service_name", "api"),
    ("destination_service_namespace", "ns1"),
    ("destination_workload", "api-v1"),
    ("destination_workload_namespace", "ns1"),
    ("destination_service", "api.ns1.svc"), ("response_code", "503")]⟩

/-! ### Helper lemmas: formatting, histograms, accumulation branches -/

/-- Evaluation rule for `fmt2`: if `n` is the integer nearest `100 * q`
(rounding half up), the output is `n` split into integer and two-digit
fractional part. -/
theorem fmt2_eq_of_bounds (q : ℚ) (n : ℕ) (h0 : 0 ≤ q)
    (h1 : (n : ℚ) ≤ q * 100 + 1 / 2) (h2 : q * 100 + 1 / 2 < (n : ℚ) + 1) :
    fmt2 q = toString (n / 100) ++ "." ++ pad2 (n % 100) := by
  rw [fmt2, if_neg (not_lt.mpr h0), fmt2Nonneg]
  have hfl : ⌊q * 100 + 1 / 2⌋ = (n : ℤ) := by
    rw [Int.floor_eq_iff]
    constructor
    · push_cast; exact h1
    · push_cast; exact h2
  simp only [hfl, Int.toNat_ofNat]

/-- Reading the head entry of a histogram. -/
theorem lookupRC_cons (c0 : String) (x : ℚ) (rest : RCMap) (c : String) :
    lookupRC ((c0, x) :: rest) c = if c0 == c then x else lookupRC rest c := by
  by_cases h : (c0 == c) = true
  · simp [lookupRC, List.find?_cons, h]
  · rw [Bool.not_eq_true] at h
    simp [lookupRC, List.find?_cons, h]

/-- Reading a bucket after `m[code] += value`: the bumped bucket grows by
`value`, all others are unchanged. -/
theorem lookupRC_bumpCode (m : RCMap) (code c : String) (v : ℚ) :
    lookupRC (bumpCode m code v) c =
      lookupRC m c + (if c = code then v else 0) := by
  induction m with
  | nil =>
      by_cases hc : c = code
      · simp [bumpCode, lookupRC_cons, hc, lookupRC]
      · have hb : (code == c) = false := by
          simpa using fun h => hc h.symm
        simp [bumpCode, lookupRC_cons, hb, hc, lookupRC]
  | cons p rest ih =>
      obtain ⟨c0, x⟩ := p
      by_cases h0 : c0 = code
      · subst h0
        by_cases hc : c = c0
        · subst hc
          simp [bumpCode, lookupRC_cons]
        · have hbeq : (c0 == c) = false := by
            simpa using fun h => hc h.symm
          simp [bumpCode, lookupRC_cons, hbeq, hc]
      · have hbeq : (c0 == code) = false := by simpa using h0
        by_cases hc : c = c0
        · subst hc
          have hcc : ¬ c = code := fun h => h0 (by rw [← h])
          simp [bumpCode, lookupRC_cons, hbeq, hcc]
        · have hbeq2 : (c0 == c) = false := by
            simpa using fun h => hc h.symm
          simp [bumpCode, lookupRC_cons, hbeq, hbeq2, ih]

theorem accumulateMetric_grpcRequests_error (m : Metric) (e : Edge)
    (hk : lookupLabel m.labels "metric" = MetricGRPCRequests)
    (hc : lookupLabel m.labels "grpc_response_status" ∈ grpcErrorCodes) :
    accumulateMetric m e = some
      { e with
        grpcResponseCodes := bumpCode e.grpcResponseCodes
          (lookupLabel m.labels "grpc_response_status") m.value
        grpcRequestsError := e.grpcRequestsError + m.value } := by
  simp only [grpcErrorCodes, List.mem_cons, List.not_mem_nil, or_false] at hc
  rcases hc with h | h | h | h | h | h <;>
    simp [accumulateMetric, hk, h, MetricGRPCRequests]

theorem accumulateMetric_grpcRequests_success (m : Metric) (e : Edge)
    (hk : lookupLabel m.labels "metric" = MetricGRPCRequests)
    (hc : lookupLabel m.labels "grpc_response_status" ∉ grpcErrorCodes) :
    accumulateMetric m e = some
      { e with
        grpcResponseCodes := bumpCode e.grpcResponseCodes
          (lookupLabel m.labels "grpc_response_status") m.value
        grpcRequestsSuccess := e.grpcRequestsSuccess + m.value } := by
  simp only [grpcErrorCodes, List.mem_cons, List.not_mem_nil, or_false,
    not_or] at hc
  obtain ⟨h1, h2, h3, h4, h5, h6⟩ := hc
  have b1 : (lookupLabel m.labels "grpc_response_status" == "2") = false := by
    simpa using h1
  have b2 : (lookupLabel m.labels "grpc_response_status" == "4") = false := by
    simpa using h2
  have b3 : (lookupLabel m.labels "grpc_response_status" == "12") = false := by
    simpa using h3
  have b4 : (lookupLabel m.labels "grpc_response_status" == "13") = false := by
    simpa using h4
  have b5 : (lookupLabel m.labels "grpc_response_status" == "14") = false := by
    simpa using h5
  have b6 : (lookupLabel m.labels "grpc_response_status" == "15") = false := by
    simpa using h6
  simp [accumulateMetric, hk, MetricGRPCRequests, b1, b2, b3, b4, b5, b6]

theorem accumulateMetric_grpcDuration (m : Metric) (e : Edge)
    (hk : lookupLabel m.labels "metric" = MetricGRPCRequestDuration) :
    accumulateMetric m e = some
      (if e.destinationType = "Service" ∧ m.value > 0 then
        { e with grpcRequestDuration := m.value }
      else e) := by
  by_cases hs : e.destinationType = "Service" ∧ m.value > 0
  · simp [accumulateMetric, hk, MetricGRPCRequestDuration, MetricGRPCRequests,
      hs, hs.1, hs.2]
  · rw [not_and_or] at hs
    rcases hs with hs | hs
    · have hb : (e.destinationType == "Service") = false := by simpa using hs
      simp [accumulateMetric, hk, MetricGRPCRequestDuration, MetricGRPCRequests,
        hb, hs]
    · simp [accumulateMetric, hk, MetricGRPCRequestDuration, MetricGRPCRequests,
        hs]

theorem accumulateMetric_httpDuration (m : Metric) (e : Edge)
    (hk : lookupLabel m.labels "metric" = MetricHTTPRequestDuration) :
    accumulateMetric m e = some
      (if e.destinationType = "Service" ∧ m.value > 0 then
        { e with httpRequestDuration := m.value }
      else e) := by
  by_cases hs : e.destinationType = "Service" ∧ m.value > 0
  · simp [accumulateMetric, hk, MetricHTTPRequestDuration, MetricGRPCRequests,
      MetricGRPCRequestDuration, MetricGRPCSentMessages,
      MetricGRPCReceivedMessages, MetricHTTPRequests, hs, hs.1, hs.2]
  · rw [not_and_or] at hs
    rcases hs with hs | hs
    · have hb : (e.destinationType == "Service") = false := by simpa using hs
      simp [accumulateMetric, hk, MetricHTTPRequestDuration, MetricGRPCRequests,
        MetricGRPCRequestDuration, MetricGRPCSentMessages,
        MetricGRPCReceivedMessages, MetricHTTPRequests, hb, hs]
    · simp [accumulateMetric, hk, MetricHTTPRequestDuration, MetricGRPCRequests,
        MetricGRPCRequestDuration, MetricGRPCSentMessages,
        MetricGRPCReceivedMessages, MetricHTTPRequests, hs]

theorem accumulateMetric_httpRequests_error (m : Metric) (e : Edge)
    (hk : lookupLabel m.labels "metric" = MetricHTTPRequests)
    (hne : ¬ (lookupLabel m.labels "response_code").isEmpty = true)
    (hc : (lookupLabel m.labels "response_code").front = '5') :
    accumulateMetric m e = some
      { e with
        httpResponseCodes := bumpCode e.httpResponseCodes
          (lookupLabel m.labels "response_code") m.value
        httpRequestsError := e.httpRequestsError + m.value } := by
  simp [accumulateMetric, hk, MetricHTTPRequests, MetricGRPCRequests,
    MetricGRPCRequestDuration, MetricGRPCSentMessages,
    MetricGRPCReceivedMessages, hne, hc]

theorem accumulateMetric_httpRequests_success (m : Metric) (e : Edge)
    (hk : lookupLabel m.labels "metric" = MetricHTTPRequests)
    (hne : ¬ (lookupLabel m.labels "response_code").isEmpty = true)
    (hc : ¬ (lookupLabel m.labels "response_code").front = '5') :
    accumulateMetric m e = some
      { e with
        httpResponseCodes := bumpCode e.httpResponseCodes
          (lookupLabel m.labels "response_code") m.value
        httpRequestsSuccess := e.httpRequestsSuccess + m.value } := by
  have hb : ((lookupLabel m.labels "response_code").front == '5') = false := by
    simpa using hc
  simp [accumulateMetric, hk, MetricHTTPRequests, MetricGRPCRequests,
    MetricGRPCRequestDuration, MetricGRPCSentMessages,
    MetricGRPCReceivedMessages, hne, hb]

theorem accumulateMetric_grpcSentMessages (m : Metric) (e : Edge)
    (hk : lookupLabel m.labels "metric" = MetricGRPCSentMessages) :
    accumulateMetric m e =
      some { e with grpcSentMessages := e.grpcSentMessages + m.value } := by
  simp [accumulateMetric, hk, MetricGRPCSentMessages, MetricGRPCRequests,
    MetricGRPCRequestDuration]

theorem accumulateMetric_grpcReceivedMessages (m : Metric) (e : Edge)
    (hk : lookupLabel m.labels "metric" = MetricGRPCReceivedMessages) :
    accumulateMetric m e =
      some { e with grpcReceivedMessages := e.grpcReceivedMessages + m.value } := by
  simp [accumulateMetric, hk, MetricGRPCReceivedMessages, MetricGRPCRequests,
    MetricGRPCRequestDuration, MetricGRPCSentMessages]

theorem accumulateMetric_tcpSentBytes (m : Metric) (e : Edge)
    (hk : lookupLabel m.labels "metric" = MetricTCPSentBytes) :
    accumulateMetric m e =
      some { e with tcpSentBytes := e.tcpSentBytes + m.value } := by
  simp [accumulateMetric, hk, MetricTCPSentBytes, MetricGRPCRequests,
    MetricGRPCRequestDuration, MetricGRPCSentMessages,
    MetricGRPCReceivedMessages, MetricHTTPRequests, MetricHTTPRequestDuration]

theorem accumulateMetric_tcpReceivedBytes (m : Metric) (e : Edge)
    (hk : lookupLabel m.labels "metric" = MetricTCPReceivedBytes) :
    accumulateMetric m e =
      some { e with tcpReceivedBytes := e.tcpReceivedBytes + m.value } := by
  simp [accumulateMetric, hk, MetricTCPReceivedBytes, MetricGRPCRequests,
    MetricGRPCRequestDuration, MetricGRPCSentMessages,
    MetricGRPCReceivedMessages, MetricHTTPRequests, MetricHTTPRequestDuration,
    MetricTCPSentBytes]

theorem accumulateMetric_httpRequests_empty (m : Metric) (e : Edge)
    (hk : lookupLabel m.labels "metric" = MetricHTTPRequests)
    (hemp : (lookupLabel m.labels "response_code").isEmpty = true) :
    accumulateMetric m e = none := by
  simp [accumulateMetric, hk, MetricHTTPRequests, MetricGRPCRequests,
    MetricGRPCRequestDuration, MetricGRPCSentMessages,
    MetricGRPCReceivedMessages, hemp]

theorem accumulateMetric_unknownKind (m : Metric) (e : Edge)
    (hk : lookupLabel m.labels "metric" ∉
      [MetricGRPCRequests, MetricGRPCRequestDuration, MetricGRPCSentMessages,
       MetricGRPCReceivedMessages, MetricHTTPRequests,
       MetricHTTPRequestDuration, MetricTCPSentBytes, MetricTCPReceivedBytes]) :
    accumulateMetric m e = some e := by
  simp only [List.mem_cons, List.not_mem_nil, or_false, not_or] at hk
  obtain ⟨k1, k2, k3, k4, k5, k6, k7, k8⟩ := hk
  have b1 : (lookupLabel m.labels "metric" == MetricGRPCRequests) = false := by
    simpa using k1
  have b2 : (lookupLabel m.labels "metric" == MetricGRPCRequestDuration) = false := by
    simpa using k2
  have b3 : (lookupLabel m.labels "metric" == MetricGRPCSentMessages) = false := by
    simpa using k3
  have b4 : (lookupLabel m.labels "metric" == MetricGRPCReceivedMessages) = false := by
    simpa using k4
  have b5 : (lookupLabel m.labels "metric" == MetricHTTPRequests) = false := by
    simpa using k5
  have b6 : (lookupLabel m.labels "metric" == MetricHTTPRequestDuration) = false := by
    simpa using k6
  have b7 : (lookupLabel m.labels "metric" == MetricTCPSentBytes) = false := by
    simpa using k7
  have b8 : (lookupLabel m.labels "metric" == MetricTCPReceivedBytes) = false := by
    simpa using k8
  simp [accumulateMetric, b1, b2, b3, b4, b5, b6, b7, b8]

/-- `accumulateMetric` applies the same counter deltas to any two edges: if
two edges agree on all counter fields before a sample, they agree after it
(durations, which depend on the edge's destination type, are not counters). -/
theorem accumulateMetric_counters_eq (m : Metric) (e1 e2 a1 a2 : Edge)
    (h1 : accumulateMetric m e1 = some a1)
    (h2 : accumulateMetric m e2 = some a2)
    (heq : edgeCounters e1 = edgeCounters e2) :
    edgeCounters a1 = edgeCounters a2 := by
  simp only [edgeCounters, Prod.mk.injEq] at heq
  obtain ⟨q1, q2, q3, q4, q5, q6, q7, q8, q9, q10⟩ := heq
  by_cases k1 : lookupLabel m.labels "metric" = MetricGRPCRequests
  · by_cases hc : lookupLabel m.labels "grpc_response_status" ∈ grpcErrorCodes
    · rw [accumulateMetric_grpcRequests_error m e1 k1 hc] at h1
      rw [accumulateMetric_grpcRequests_error m e2 k1 hc] at h2
      cases h1; cases h2
      simp [edgeCounters, q1, q2, q3, q4, q5, q6, q7, q8, q9, q10]
    · rw [accumulateMetric_grpcRequests_success m e1 k1 hc] at h1
      rw [accumulateMetric_grpcRequests_success m e2 k1 hc] at h2
      cases h1; cases h2
      simp [edgeCounters, q1, q2, q3, q4, q5, q6, q7, q8, q9, q10]
  · by_cases k2 : lookupLabel m.labels "metric" = MetricGRPCRequestDuration
    · rw [accumulateMetric_grpcDuration m e1 k2] at h1
      rw [accumulateMetric_grpcDuration m e2 k2] at h2
      cases h1; cases h2
      split <;> split <;>
        simp [edgeCounters, q1, q2, q3, q4, q5, q6, q7, q8, q9, q10]
    · by_cases k3 : lookupLabel m.labels "metric" = MetricGRPCSentMessages
      · rw [accumulateMetric_grpcSentMessages m e1 k3] at h1
        rw [accumulateMetric_grpcSentMessages m e2 k3] at h2
        cases h1; cases h2
        simp [edgeCounters, q1, q2, q3, q4, q5, q6, q7, q8, q9, q10]
      · by_cases k4 : lookupLabel m.labels "metric" = MetricGRPCReceivedMessages
        · rw [accumulateMetric_grpcReceivedMessages m e1 k4] at h1
          rw [accumulateMetric_grpcReceivedMessages m e2 k4] at h2
          cases h1; cases h2
          simp [edgeCounters, q1, q2, q3, q4, q5, q6, q7, q8, q9, q10]
        · by_cases k5 : lookupLabel m.labels "metric" = MetricHTTPRequests
          · by_cases hemp : (lookupLabel m.labels "response_code").isEmpty = true
            · rw [accumulateMetric_httpRequests_empty m e1 k5 hemp] at h1
              cases h1
            · by_cases hfv : (lookupLabel m.labels "response_code").front = '5'
              · rw [accumulateMetric_httpRequests_error m e1 k5 hemp hfv] at h1
                rw [accumulateMetric_httpRequests_error m e2 k5 hemp hfv] at h2
                cases h1; cases h2
                simp [edgeCounters, q1, q2, q3, q4, q5, q6, q7, q8, q9, q10]
              · rw [accumulateMetric_httpRequests_success m e1 k5 hemp hfv] at h1
                rw [accumulateMetric_httpRequests_success m e2 k5 hemp hfv] at h2
                cases h1; cases h2
                simp [edgeCounters, q1, q2, q3, q4, q5, q6, q7, q8, q9, q10]
          · by_cases k6 : lookupLabel m.labels "metric" = MetricHTTPRequestDuration
            · rw [accumulateMetric_httpDuration m e1 k6] at h1
              rw [accumulateMetric_httpDuration m e2 k6] at h2
              cases h1; cases h2
              split <;> split <;>
                simp [edgeCounters, q1, q2, q3, q4, q5, q6, q7, q8, q9, q10]
            · by_cases k7 : lookupLabel m.labels "metric" = MetricTCPSentBytes
              · rw [accumulateMetric_tcpSentBytes m e1 k7] at h1
                rw [accumulateMetric_tcpSentBytes m e2 k7] at h2
                cases h1; cases h2
                simp [edgeCounters, q1, q2, q3, q4, q5, q6, q7, q8, q9, q10]
              · by_cases k8 : lookupLabel m.labels "metric" = MetricTCPReceivedBytes
                · rw [accumulateMetric_tcpReceivedBytes m e1 k8] at h1
                  rw [accumulateMetric_tcpReceivedBytes m e2 k8] at h2
                  cases h1; cases h2
                  simp [edgeCounters, q1, q2, q3, q4, q5, q6, q7, q8, q9, q10]
                · have hk : lookupLabel m.labels "metric" ∉
                    [MetricGRPCRequests, MetricGRPCRequestDuration,
                     MetricGRPCSentMessages, MetricGRPCReceivedMessages,
                     MetricHTTPRequests, MetricHTTPRequestDuration,
                     MetricTCPSentBytes, MetricTCPReceivedBytes] := by
                    simp only [List.mem_cons, List.not_mem_nil, or_false, not_or]
                    exact ⟨k1, k2, k3, k4, k5, k6, k7, k8⟩
                  rw [accumulateMetric_unknownKind m e1 hk] at h1
                  rw [accumulateMetric_unknownKind m e2 hk] at h2
                  cases h1; cases h2
                  simp [edgeCounters, q1, q2, q3, q4, q5, q6, q7, q8, q9, q10]

/-- An invariant preserved by every step of an `Option`-valued fold holds of
its result. -/
theorem foldlM_option_inv {α β : Type} (P : β → Prop) (g : β → α → Option β) :
    ∀ (l : List α) (acc res : β),
      (∀ b a r, a ∈ l → g b a = some r → P b → P r) →
      List.foldlM g acc l = some res → P acc → P res := by
  intro l
  induction l with
  | nil =>
      intro acc res _ hf hp
      rw [List.foldlM_nil] at hf
      cases hf
      exact hp
  | cons a l ih =>
      intro acc res hstep hf hp
      rw [List.foldlM_cons] at hf
      cases hg : g acc a with
      | none => rw [hg] at hf; cases hf
      | some acc' =>
          rw [hg] at hf
          simp only [Option.bind_eq_bind, Option.some_bind] at hf
          exact ih acc' res
            (fun b x r hx => hstep b x r (List.mem_cons_of_mem _ hx)) hf
            (hstep acc a acc' (List.mem_cons_self _ _) hg hp)

/-- An `Option`-valued fold whose every step succeeds, succeeds. -/
theorem foldlM_option_isSome {α β : Type} (g : β → α → Option β) :
    ∀ (l : List α) (acc : β), (∀ b a, a ∈ l → (g b a).isSome) →
      (List.foldlM g acc l).isSome := by
  intro l
  induction l with
  | nil => intro acc _; rw [List.foldlM_nil]; rfl
  | cons a l ih =>
      intro acc hstep
      rw [List.foldlM_cons]
      cases hg : g acc a with
      | none =>
          have := hstep acc a (List.mem_cons_self _ _)
          rw [hg] at this
          cases this
      | some acc' =>
          simp only [hg, Option.bind_eq_bind, Option.some_bind]
          exact ih acc' (fun b x hx => hstep b x (List.mem_cons_of_mem _ hx))

/-- `accumulateMetric` never touches the identity fields of an edge. -/
theorem accumulateMetric_shape (m : Metric) (e e' : Edge)
    (hacc : accumulateMetric m e = some e') :
    e'.id = e.id ∧ e'.source = e.source ∧ e'.sourceType = e.sourceType ∧
    e'.sourceName = e.sourceName ∧ e'.sourceNamespace = e.sourceNamespace ∧
    e'.destination = e.destination ∧ e'.destinationType = e.destinationType ∧
    e'.destinationName = e.destinationName ∧
    e'.destinationNamespace = e.destinationNamespace ∧
    e'.destinationService = e.destinationService := by
  simp only [accumulateMetric] at hacc
  repeat' split at hacc
  all_goals cases hacc
  all_goals exact ⟨rfl, rfl, rfl, rfl, rfl, rfl, rfl, rfl, rfl, rfl⟩

/-- `accumulateMetric` preserves "a non-service-destination edge has zero
durations": the only statements writing a duration are guarded by
`DestinationType == "Service"`. -/
theorem accumulateMetric_duration_inv (m : Metric) (e e' : Edge)
    (hacc : accumulateMetric m e = some e')
    (hd : e.destinationType ≠ "Service" →
      e.grpcRequestDuration = 0 ∧ e.httpRequestDuration = 0) :
    e'.destinationType ≠ "Service" →
      e'.grpcRequestDuration = 0 ∧ e'.httpRequestDuration = 0 := by
  simp only [accumulateMetric] at hacc
  repeat' split at hacc
  all_goals cases hacc
  all_goals intro hne
  all_goals try exact hd hne
  all_goals
    (rename_i hcond
     rw [Bool.and_eq_true, beq_iff_eq] at hcond
     exact absurd hcond.1 hne)

/-- Every temporary edge starts with zero durations. -/
theorem tmpEdges_duration_zero (m : Metric) :
    ∀ t ∈ tmpEdges m, t.grpcRequestDuration = 0 ∧ t.httpRequestDuration = 0 := by
  intro t ht
  unfold tmpEdges at ht
  split at ht <;> rw [List.mem_cons] at ht
  · rcases ht with ht | ht
    · subst ht; exact ⟨rfl, rfl⟩
    · cases ht
  · rcases ht with ht | ht
    · subst ht; exact ⟨rfl, rfl⟩
    · rw [List.mem_cons] at ht
      rcases ht with ht | ht
      · subst ht; exact ⟨rfl, rfl⟩
      · cases ht

/-- `updateEdgeList` preserves a pointwise invariant that `accumulateMetric`
preserves. -/
theorem updateEdgeList_inv (P : Edge → Prop)
    (hP : ∀ m e e', accumulateMetric m e = some e' → P e → P e') :
    ∀ (es : List Edge) (id : String) (m : Metric) (es' : List Edge),
      updateEdgeList es id m = some es' → (∀ e ∈ es, P e) → ∀ e ∈ es', P e := by
  intro es
  induction es with
  | nil =>
      intro id m es' hup hall
      simp only [updateEdgeList] at hup
      cases hup
      intro e he; cases he
  | cons x rest ih =>
      intro id m es' hup hall
      simp only [updateEdgeList] at hup
      by_cases hid : (x.id == id) = true
      · rw [if_pos hid] at hup
        cases hx : accumulateMetric m x with
        | none => rw [hx] at hup; cases hup
        | some a =>
            rw [hx] at hup
            simp only [Option.map_some'] at hup
            have hes : es' = a :: rest := (Option.some.inj hup).symm
            subst hes
            intro y hy
            rcases List.mem_cons.mp hy with hy | hy
            · rw [hy]; exact hP m x a hx (hall x (List.mem_cons_self _ _))
            · exact hall y (List.mem_cons_of_mem _ hy)
      · rw [if_neg hid] at hup
        cases hr : updateEdgeList rest id m with
        | none => rw [hr] at hup; cases hup
        | some rest' =>
            rw [hr] at hup
            simp only [Option.map_some'] at hup
            have hes : es' = x :: rest' := (Option.some.inj hup).symm
            subst hes
            intro y hy
            rcases List.mem_cons.mp hy with hy | hy
            · rw [hy]; exact hall x (List.mem_cons_self _ _)
            · exact ih id m rest' hr
                (fun z hz => hall z (List.mem_cons_of_mem _ hz)) y hy

/-- `metricsToEdges` preserves any pointwise edge invariant that holds of all
temporary edges and is preserved by `accumulateMetric`. -/
theorem metricsToEdges_inv (P : Edge → Prop)
    (hP : ∀ m e e', accumulateMetric m e = some e' → P e → P e')
    (hT : ∀ (m : Metric), ∀ t ∈ tmpEdges m, P t)
    (ms : List Metric) (sf df : List String) (es : List Edge)
    (h : metricsToEdges ms sf df = some es) : ∀ e ∈ es, P e := by
  refine foldlM_option_inv (fun l => ∀ e ∈ l, P e) _ ms [] es ?_ h (by simp)
  intro b m r _ hpr hb
  unfold processMetric at hpr
  split_ifs at hpr with hfil
  · cases hpr; exact hb
  · refine foldlM_option_inv (fun l => ∀ e ∈ l, P e) _ (tmpEdges m) b r ?_ hpr hb
    intro b2 t r2 htm hup hb2
    by_cases hany : (b2.any fun x => x.id == t.id) = true
    · rw [if_pos hany] at hup
      exact updateEdgeList_inv P hP b2 t.id m r2 hup hb2
    · rw [if_neg hany] at hup
      refine updateEdgeList_inv P hP (b2 ++ [t]) t.id m r2 hup ?_
      intro e he
      rcases List.mem_append.mp he with he | he
      · exact hb2 e he
      · have het : e = t := by simpa using he
        rw [het]
        exact hT m t htm

/-- `accumulateMetric` succeeds whenever an HTTP-requests sample carries a
non-empty `response_code` label (the only `none`, i.e. Go panic, path). -/
theorem accumulateMetric_isSome (m : Metric) (e : Edge)
    (h : lookupLabel m.labels "metric" = MetricHTTPRequests →
      lookupLabel m.labels "response_code" ≠ "") :
    (accumulateMetric m e).isSome := by
  simp only [accumulateMetric]
  repeat' split
  all_goals try rfl
  rename_i hkind hempty
  rw [beq_iff_eq] at hkind
  rw [String.isEmpty_iff] at hempty
  exact absurd hempty (h hkind)

/-- `updateEdgeList` succeeds when `accumulateMetric` succeeds on every
edge. -/
theorem updateEdgeList_isSome (m : Metric)
    (h : ∀ e, (accumulateMetric m e).isSome) :
    ∀ (es : List Edge) (id : String), (updateEdgeList es id m).isSome := by
  intro es
  induction es with
  | nil => intro id; rfl
  | cons x rest ih =>
      intro id
      simp only [updateEdgeList]
      by_cases hid : (x.id == id) = true
      · rw [if_pos hid]
        cases hx : accumulateMetric m x with
        | none => have := h x; rw [hx] at this; cases this
        | some a => rfl
      · rw [if_neg hid]
        cases hr : updateEdgeList rest id m with
        | none => have := ih id; rw [hr] at this; cases this
        | some rest' => rfl

/-- Claim C5: for every gRPC-requests sample, the Edge Builder adds the
sample's value to the response-code histogram bucket of the code on the
sample, and adds the value to the error accumulator exactly when the
`grpc_response_status` is one of {2, 4, 12, 13, 14, 15}, otherwise to the
success accumulator. -/
theorem grpcRequests_classification (m : Metric) (e : Edge)
    (hk : lookupLabel m.labels "metric" = MetricGRPCRequests) :
    ∃ e', accumulateMetric m e = some e' ∧
      (∀ c, lookupRC e'.grpcResponseCodes c =
        lookupRC e.grpcResponseCodes c +
          (if c = lookupLabel m.labels "grpc_response_status" then m.value
           else 0)) ∧
      (lookupLabel m.labels "grpc_response_status" ∈ grpcErrorCodes →
        e'.grpcRequestsError = e.grpcRequestsError + m.value ∧
        e'.grpcRequestsSuccess = e.grpcRequestsSuccess) ∧
      (lookupLabel m.labels "grpc_response_status" ∉ grpcErrorCodes →
        e'.grpcRequestsSuccess = e.grpcRequestsSuccess + m.value ∧
        e'.grpcRequestsError = e.grpcRequestsError) := by
  by_cases hc : lookupLabel m.labels "grpc_response_status" ∈ grpcErrorCodes
  · refine ⟨_, accumulateMetric_grpcRequests_error m e hk hc, ?_, ?_, ?_⟩
    · intro c
      exact lookupRC_bumpCode e.grpcResponseCodes _ c m.value
    · intro _; exact ⟨rfl, rfl⟩
    · intro h; exact absurd hc h
  · refine ⟨_, accumulateMetric_grpcRequests_success m e hk hc, ?_, ?_, ?_⟩
    · intro c
      exact lookupRC_bumpCode e.grpcResponseCodes _ c m.value
    · intro h; exact absurd h hc
    · intro _; exact ⟨rfl, rfl⟩

/-- Concrete instantiation of C5: a gRPC sample with status 13 and value 7
lands in the error accumulator and in the "13" bucket. -/
theorem grpcRequests_classification_witness :
    ∃ e', accumulateMetric
        ⟨7, [("metric", "grpcRequests"), ("grpc_response_status", "13")]⟩
        {} = some e' ∧
      (∀ c, lookupRC e'.grpcResponseCodes c =
        lookupRC ({} : Edge).grpcResponseCodes c +
          (if c = lookupLabel
              [("metric", "grpcRequests"), ("grpc_response_status", "13")]
              "grpc_response_status" then (7 : ℚ) else 0)) ∧
      (lookupLabel [("metric", "grpcRequests"), ("grpc_response_status", "13")]
          "grpc_response_status" ∈ grpcErrorCodes →
        e'.grpcRequestsError = ({} : Edge).grpcRequestsError + 7 ∧
        e'.grpcRequestsSuccess = ({} : Edge).grpcRequestsSuccess) ∧
      (lookupLabel [("metric", "grpcRequests"), ("grpc_response_status", "13")]
          "grpc_response_status" ∉ grpcErrorCodes →
        e'.grpcRequestsSuccess = ({} : Edge).grpcRequestsSuccess + 7 ∧
        e'.grpcRequestsError = ({} : Edge).grpcRequestsError) :=
  grpcRequests_classification
    ⟨7, [("metric", "grpcRequests"), ("grpc_response_status", "13")]⟩
    {} (by decide)

/-- Claim C6: gRPC and HTTP duration samples overwrite an edge's duration
only when the value is positive and the destination is a Service; every
edge of a `metricsToEdges` run whose destination is not a Service (in
particular every service→workload edge) keeps both durations at zero. -/
theorem duration_only_into_services :
    (∀ (m : Metric) (e : Edge),
      lookupLabel m.labels "metric" = MetricGRPCRequestDuration →
      accumulateMetric m e = some
        (if e.destinationType = "Service" ∧ m.value > 0 then
          { e with grpcRequestDuration := m.value }
         else e)) ∧
    (∀ (m : Metric) (e : Edge),
      lookupLabel m.labels "metric" = MetricHTTPRequestDuration →
      accumulateMetric m e = some
        (if e.destinationType = "Service" ∧ m.value > 0 then
          { e with httpRequestDuration := m.value }
         else e)) ∧
    (∀ (ms : List Metric) (sf df : List String) (es : List Edge),
      metricsToEdges ms sf df = some es →
      ∀ e ∈ es, e.destinationType ≠ "Service" →
        e.grpcRequestDuration = 0 ∧ e.httpRequestDuration = 0) := by
  refine ⟨accumulateMetric_grpcDuration, accumulateMetric_httpDuration, ?_⟩
  intro ms sf df es h
  exact metricsToEdges_inv
    (fun e => e.destinationType ≠ "Service" →
      e.grpcRequestDuration = 0 ∧ e.httpRequestDuration = 0)
    accumulateMetric_duration_inv
    (fun m t ht _ => tmpEdges_duration_zero m t ht)
    ms sf df es h

/-- Concrete instantiation of C6: an HTTP duration sample with positive value
does not touch a workload-destination edge, and a full run over one
HTTP-requests sample leaves the service→workload edge's durations at zero. -/
theorem duration_only_into_services_witness :
    accumulateMetric ⟨25, [("metric", "httpRequestDuration")]⟩
        { destinationType := "Workload" } =
      some ({ destinationType := "Workload" } : Edge) := by
  have h := duration_only_into_services.2.1
    ⟨25, [("metric", "httpRequestDuration")]⟩
    { destinationType := "Workload" } (by decide)
  rw [h]
  rw [if_neg]
  intro hcon
  exact absurd hcon.1 (by decide)

/-- `processMetric` succeeds whenever every HTTP-requests sample carries a
non-empty `response_code` label. -/
theorem processMetric_isSome (sf df : List String) (es : List Edge) (m : Metric)
    (h : lookupLabel m.labels "metric" = MetricHTTPRequests →
      lookupLabel m.labels "response_code" ≠ "") :
    (processMetric sf df es m).isSome := by
  unfold processMetric
  split
  · rfl
  · apply foldlM_option_isSome
    intro b t _
    exact updateEdgeList_isSome m (fun e => accumulateMetric_isSome m e h) _ t.id

/-- Claim C10: the Edge Builder is total exactly under the precondition that
every HTTP-requests sample carries a non-empty `response_code` label; an
HTTP-requests sample whose `response_code` label is absent (hence the Go map
read yields the empty string) drives the unguarded `code[0]` byte index,
i.e. the embedded `none` (a panic in the concrete program). -/
theorem httpRequests_empty_response_code_unsafe :
    (∀ (ms : List Metric) (sf df : List String),
      (∀ m ∈ ms, lookupLabel m.labels "metric" = MetricHTTPRequests →
        lookupLabel m.labels "response_code" ≠ "") →
      (metricsToEdges ms sf df).isSome) ∧
    metricsToEdges [⟨1, [("metric", "httpRequests")]⟩] [] [] = none := by
  constructor
  · intro ms sf df h
    unfold metricsToEdges
    apply foldlM_option_isSome
    intro b m hm
    exact processMetric_isSome sf df b m (h m hm)
  · decide

/-- Concrete instantiation of C10's totality half: one HTTP-requests sample
with a present response code builds edges without the panic path. -/
theorem httpRequests_empty_response_code_unsafe_witness :
    (metricsToEdges
        [⟨1, [("metric", "httpRequests"), ("response_code", "200")]⟩]
        [] []).isSome :=
  httpRequests_empty_response_code_unsafe.1
    [⟨1, [("metric", "httpRequests"), ("response_code", "200")]⟩] [] []
    (by decide)

/-- Claim C9: after the join barrier, a graph build with at least one recorded
fetch error returns an error response carrying the first recorded error and
no edge or node frames; with no recorded error it proceeds through
deduplication, edge building, node aggregation and projection. -/
theorem graph_build_abort_on_error (wt et : ℚ) (results : List FetchResult)
    (sf df : List String) (iv : ℚ) :
    (∀ (err : String) (rest : List String),
      (results.map taskErrors).flatten = err :: rest →
      handleGraph wt et results sf df iv =
        some { errorMsg := some err, edgeFields := [], nodeFields := [] }) ∧
    ((results.map taskErrors).flatten = [] →
      handleGraph wt et results sf df iv =
        (metricsToEdges (deduplicateMetrics ((results.map taskMetrics).flatten))
            sf df).map
          (fun edges =>
            { errorMsg := none
              edgeFields := edges.map (fun e => getEdgeField wt et e iv)
              nodeFields := (edgesToNodes edges).map
                (fun n => getNodeField wt et n iv) })) := by
  constructor
  · intro err rest herr
    simp only [handleGraph, herr]
  · intro hnone
    simp only [handleGraph, hnone]
    cases hm : metricsToEdges
        (deduplicateMetrics ((results.map taskMetrics).flatten)) sf df with
    | none => simp [hm]
    | some edges => simp [hm]

/-- Concrete instantiation of C9: a single failed destination fetch aborts the
build with that error and empty frames. -/
theorem graph_build_abort_on_error_witness :
    handleGraph 1 5 [.destinationErr "boom"] [] [] 10 =
      some { errorMsg := some "boom", edgeFields := [], nodeFields := [] } :=
  (graph_build_abort_on_error 1 5 [.destinationErr "boom"] [] [] 10).1
    "boom" [] (by decide)

/-- The three-way color rule on an error rate, as an iff triple (thresholds
in the sane configuration `warning < error`). -/
theorem color_ite_iff (r wt et : ℚ) (hwe : wt < et) :
    (((if r ≥ et then colorCritical
       else if r > wt then colorWarning else colorHealthy) = colorCritical ↔
        r ≥ et) ∧
     ((if r ≥ et then colorCritical
       else if r > wt then colorWarning else colorHealthy) = colorWarning ↔
        wt < r ∧ r < et) ∧
     ((if r ≥ et then colorCritical
       else if r > wt then colorWarning else colorHealthy) = colorHealthy ↔
        r ≤ wt)) := by
  split_ifs with h1 h2 <;>
    refine ⟨?_, ?_, ?_⟩ <;>
    simp only [colorCritical, colorWarning, colorHealthy, String.reduceEq,
      false_iff, true_iff, iff_true, iff_false, not_and, not_le, not_lt] <;>
    first
      | linarith
      | (constructor <;> linarith)
      | (intro _; linarith)

/-- The color of an edge whose HTTP request volume wins the tie-break
(queryhandlers.go, lines 1072-1084). -/
theorem getEdgeField_color_http (wt et iv : ℚ) (e : Edge)
    (hb : e.httpRequestsSuccess + e.httpRequestsError >
      e.grpcRequestsSuccess + e.grpcRequestsError) :
    (getEdgeField wt et e iv).color =
      (if (if e.httpRequestsError > 0 then
            e.httpRequestsError /
              (e.httpRequestsSuccess + e.httpRequestsError) * 100
          else 0) ≥ et then colorCritical
       else if (if e.httpRequestsError > 0 then
            e.httpRequestsError /
              (e.httpRequestsSuccess + e.httpRequestsError) * 100
          else 0) > wt then colorWarning
       else colorHealthy) := by
  simp only [getEdgeField]
  rw [if_pos hb]

/-- The color of an edge whose gRPC request volume wins the tie-break
(queryhandlers.go, lines 1092-1104). -/
theorem getEdgeField_color_grpc (wt et iv : ℚ) (e : Edge)
    (hb1 : ¬ e.httpRequestsSuccess + e.httpRequestsError >
      e.grpcRequestsSuccess + e.grpcRequestsError)
    (hb2 : e.grpcRequestsSuccess + e.grpcRequestsError > 0) :
    (getEdgeField wt et e iv).color =
      (if (if e.grpcRequestsError > 0 then
            e.grpcRequestsError /
              (e.grpcRequestsSuccess + e.grpcRequestsError) * 100
          else 0) ≥ et then colorCritical
       else if (if e.grpcRequestsError > 0 then
            e.grpcRequestsError /
              (e.grpcRequestsSuccess + e.grpcRequestsError) * 100
          else 0) > wt then colorWarning
       else colorHealthy) := by
  simp only [getEdgeField]
  rw [if_neg hb1, if_pos hb2]

/-- The color of an edge with only TCP traffic (queryhandlers.go, line
1114), and of an idle edge (line 1116). -/
theorem getEdgeField_color_tcp_idle (wt et iv : ℚ) (e : Edge)
    (hb1 : ¬ e.httpRequestsSuccess + e.httpRequestsError >
      e.grpcRequestsSuccess + e.grpcRequestsError)
    (hb2 : ¬ e.grpcRequestsSuccess + e.grpcRequestsError > 0) :
    (0 < e.tcpSentBytes + e.tcpReceivedBytes →
      (getEdgeField wt et e iv).color = colorTCP) ∧
    (¬ 0 < e.tcpSentBytes + e.tcpReceivedBytes →
      (getEdgeField wt et e iv).color = colorIdle) := by
  constructor
  · intro h3
    simp only [getEdgeField]
    rw [if_neg hb1, if_neg hb2, if_pos h3]
  · intro h3
    simp only [getEdgeField]
    rw [if_neg hb1, if_neg hb2, if_neg h3]

/-- Claim C4: an edge's color is decided by the error rate of the protocol
winning the tie-break — red iff the rate is at least the error threshold,
yellow iff it is strictly above the warning threshold and below the error
threshold, green iff it is at most the warning threshold; blue whenever only
TCP traffic is present, gray with no traffic; and with thresholds 1%/5% the
rates 0%, 2%, 6% give green, yellow, red. -/
theorem edge_color_thresholds (e : Edge) (wt et iv : ℚ) (hwe : wt < et) :
    (e.httpRequestsSuccess + e.httpRequestsError >
        e.grpcRequestsSuccess + e.grpcRequestsError →
      ∀ r, r = (if e.httpRequestsError > 0 then
            e.httpRequestsError /
              (e.httpRequestsSuccess + e.httpRequestsError) * 100
          else 0) →
        (((getEdgeField wt et e iv).color = colorCritical ↔ r ≥ et) ∧
         ((getEdgeField wt et e iv).color = colorWarning ↔ wt < r ∧ r < et) ∧
         ((getEdgeField wt et e iv).color = colorHealthy ↔ r ≤ wt))) ∧
    (¬ e.httpRequestsSuccess + e.httpRequestsError >
        e.grpcRequestsSuccess + e.grpcRequestsError →
      e.grpcRequestsSuccess + e.grpcRequestsError > 0 →
      ∀ r, r = (if e.grpcRequestsError > 0 then
            e.grpcRequestsError /
              (e.grpcRequestsSuccess + e.grpcRequestsError) * 100
          else 0) →
        (((getEdgeField wt et e iv).color = colorCritical ↔ r ≥ et) ∧
         ((getEdgeField wt et e iv).color = colorWarning ↔ wt < r ∧ r < et) ∧
         ((getEdgeField wt et e iv).color = colorHealthy ↔ r ≤ wt))) ∧
    (¬ e.httpRequestsSuccess + e.httpRequestsError >
        e.grpcRequestsSuccess + e.grpcRequestsError →
      ¬ e.grpcRequestsSuccess + e.grpcRequestsError > 0 →
      0 < e.tcpSentBytes + e.tcpReceivedBytes →
      (getEdgeField wt et e iv).color = colorTCP) ∧
    (¬ e.httpRequestsSuccess + e.httpRequestsError >
        e.grpcRequestsSuccess + e.grpcRequestsError →
      ¬ e.grpcRequestsSuccess + e.grpcRequestsError > 0 →
      ¬ 0 < e.tcpSentBytes + e.tcpReceivedBytes →
      (getEdgeField wt et e iv).color = colorIdle) ∧
    (getEdgeField 1 5 { httpRequestsSuccess := 100 } 10).color = colorHealthy ∧
    (getEdgeField 1 5 { httpRequestsSuccess := 98, httpRequestsError := 2 }
        10).color = colorWarning ∧
    (getEdgeField 1 5 { httpRequestsSuccess := 94, httpRequestsError := 6 }
        10).color = colorCritical ∧
    (getEdgeField 1 5 { tcpSentBytes := 7 } 10).color = colorTCP ∧
    (getEdgeField 1 5 ({} : Edge) 10).color = colorIdle := by
  refine ⟨?_, ?_, ?_, ?_, ?_, ?_, ?_, ?_, ?_⟩
  · intro hb r hr
    rw [getEdgeField_color_http wt et iv e hb, ← hr]
    exact color_ite_iff r wt et hwe
  · intro hb1 hb2 r hr
    rw [getEdgeField_color_grpc wt et iv e hb1 hb2, ← hr]
    exact color_ite_iff r wt et hwe
  · intro hb1 hb2 h3
    exact (getEdgeField_color_tcp_idle wt et iv e hb1 hb2).1 h3
  · intro hb1 hb2 h3
    exact (getEdgeField_color_tcp_idle wt et iv e hb1 hb2).2 h3
  · rw [getEdgeField_color_http 1 5 10 _ (by norm_num)]
    norm_num
  · rw [getEdgeField_color_http 1 5 10 _ (by norm_num)]
    norm_num
  · rw [getEdgeField_color_http 1 5 10 _ (by norm_num)]
    norm_num
  · exact (getEdgeField_color_tcp_idle 1 5 10 _ (by norm_num)
      (by norm_num)).1 (by norm_num)
  · exact (getEdgeField_color_tcp_idle 1 5 10 _ (by norm_num)
      (by norm_num)).2 (by norm_num)

/-- Concrete instantiation of C4: with warning 1% and error 5%, an edge at 2%
HTTP error rate is yellow, via the iff characterization. -/
theorem edge_color_thresholds_witness :
    (getEdgeField 1 5 { httpRequestsSuccess := 98, httpRequestsError := 2 }
        10).color = colorWarning :=
  (((edge_color_thresholds
      { httpRequestsSuccess := 98, httpRequestsError := 2 } 1 5 10
      (by norm_num)).1 (by norm_num) 2 (by norm_num)).2.1).mpr
    (by norm_num)

/-- Claim C3 counterexample: a Workload node with positive server TCP bytes
(10), no server request traffic, and positive client HTTP traffic (5
successes) is projected from the client HTTP side (main stat `0.50rps` at a
10s window), not from the server TCP bytes (`1.00bps`) as the claim states. -/
theorem node_stat_server_tcp_counterexample :
    (getNodeField 1 5
        { type := "Workload", clientHTTPRequestsSuccess := 5,
          serverTCPSentBytes := 10 } 10).mainStat = ["0.50rps"] ∧
    (getNodeField 1 5
        { type := "Workload", clientHTTPRequestsSuccess := 5,
          serverTCPSentBytes := 10 } 10).mainStat ≠
      [fmt2 (((10 : ℚ) + 0) / 10) ++ "bps"] := by
  have hf : fmt2 ((1 : ℚ) / 2) = "0.50" := by
    have h := fmt2_eq_of_bounds ((1 : ℚ) / 2) 50 (by norm_num) (by norm_num)
      (by norm_num)
    simpa using h
  have hm : (getNodeField 1 5
      { type := "Workload", clientHTTPRequestsSuccess := 5,
        serverTCPSentBytes := 10 } 10).mainStat = ["0.50rps"] := by
    simp only [getNodeField]
    rw [if_neg (by decide)]
    rw [if_neg (by norm_num)]
    rw [if_neg (by norm_num)]
    rw [if_pos (by norm_num)]
    norm_num [hf]
    decide
  refine ⟨hm, ?_⟩
  rw [hm]
  have hf1 : fmt2 (((10 : ℚ) + 0) / 10) = "1.00" := by
    have h := fmt2_eq_of_bounds (((10 : ℚ) + 0) / 10) 100 (by norm_num)
      (by norm_num) (by norm_num)
    simpa using h
  rw [hf1]
  decide

/-- Claim C3 amended: for a non-Service node the projector applies the
dominant-protocol tie-break to the server-side request statistics first, but
falls through to the client-side request statistics as soon as the server
side has zero HTTP and zero gRPC request traffic — regardless of server TCP
bytes; the combined server TCP byte rate becomes the main stat only when both
sides lack request traffic. -/
theorem node_stat_projection_order (n : Node) (wt et iv : ℚ)
    (hty : ¬ n.type = "Service") :
    (n.serverHTTPRequestsSuccess + n.serverHTTPRequestsError >
        n.serverGRPCRequestsSuccess + n.serverGRPCRequestsError →
      (getNodeField wt et n iv).mainStat.head? =
        some (fmt2 ((n.serverHTTPRequestsSuccess + n.serverHTTPRequestsError) /
          iv) ++ "rps")) ∧
    (¬ n.serverHTTPRequestsSuccess + n.serverHTTPRequestsError >
        n.serverGRPCRequestsSuccess + n.serverGRPCRequestsError →
      n.serverGRPCRequestsSuccess + n.serverGRPCRequestsError > 0 →
      (getNodeField wt et n iv).mainStat.head? =
        some (fmt2 ((n.serverGRPCRequestsSuccess + n.serverGRPCRequestsError) /
          iv) ++ "rps")) ∧
    (¬ n.serverHTTPRequestsSuccess + n.serverHTTPRequestsError >
        n.serverGRPCRequestsSuccess + n.serverGRPCRequestsError →
      ¬ n.serverGRPCRequestsSuccess + n.serverGRPCRequestsError > 0 →
      n.clientHTTPRequestsSuccess + n.clientHTTPRequestsError >
        n.clientGRPCRequestsSuccess + n.clientGRPCRequestsError →
      (getNodeField wt et n iv).mainStat.head? =
        some (fmt2 ((n.clientHTTPRequestsSuccess + n.clientHTTPRequestsError) /
          iv) ++ "rps")) ∧
    (¬ n.serverHTTPRequestsSuccess + n.serverHTTPRequestsError >
        n.serverGRPCRequestsSuccess + n.serverGRPCRequestsError →
      ¬ n.serverGRPCRequestsSuccess + n.serverGRPCRequestsError > 0 →
      ¬ n.clientHTTPRequestsSuccess + n.clientHTTPRequestsError >
        n.clientGRPCRequestsSuccess + n.clientGRPCRequestsError →
      n.clientGRPCRequestsSuccess + n.clientGRPCRequestsError > 0 →
      (getNodeField wt et n iv).mainStat.head? =
        some (fmt2 ((n.clientGRPCRequestsSuccess + n.clientGRPCRequestsError) /
          iv) ++ "rps")) ∧
    (¬ n.serverHTTPRequestsSuccess + n.serverHTTPRequestsError >
        n.serverGRPCRequestsSuccess + n.serverGRPCRequestsError →
      ¬ n.serverGRPCRequestsSuccess + n.serverGRPCRequestsError > 0 →
      ¬ n.clientHTTPRequestsSuccess + n.clientHTTPRequestsError >
        n.clientGRPCRequestsSuccess + n.clientGRPCRequestsError →
      ¬ n.clientGRPCRequestsSuccess + n.clientGRPCRequestsError > 0 →
      0 < n.serverTCPSentBytes + n.serverTCPReceivedBytes →
      (getNodeField wt et n iv).mainStat =
        [fmt2 ((n.serverTCPSentBytes + n.serverTCPReceivedBytes) / iv) ++
          "bps"] ∧
      (getNodeField wt et n iv).color = colorTCP) ∧
    (¬ n.serverHTTPRequestsSuccess + n.serverHTTPRequestsError >
        n.serverGRPCRequestsSuccess + n.serverGRPCRequestsError →
      ¬ n.serverGRPCRequestsSuccess + n.serverGRPCRequestsError > 0 →
      ¬ n.clientHTTPRequestsSuccess + n.clientHTTPRequestsError >
        n.clientGRPCRequestsSuccess + n.clientGRPCRequestsError →
      ¬ n.clientGRPCRequestsSuccess + n.clientGRPCRequestsError > 0 →
      ¬ 0 < n.serverTCPSentBytes + n.serverTCPReceivedBytes →
      0 < n.clientTCPSentBytes + n.clientTCPReceivedBytes →
      (getNodeField wt et n iv).mainStat =
        [fmt2 ((n.clientTCPSentBytes + n.clientTCPReceivedBytes) / iv) ++
          "bps"] ∧
      (getNodeField wt et n iv).color = colorTCP) := by
  have hbty : ¬ (n.type == "Service") = true := by simpa using hty
  refine ⟨?_, ?_, ?_, ?_, ?_, ?_⟩
  · intro h1
    simp only [getNodeField]
    rw [if_neg hbty, if_pos h1]
    simp
  · intro h1 h2
    simp only [getNodeField]
    rw [if_neg hbty, if_neg h1, if_pos h2]
    simp
  · intro h1 h2 h3
    simp only [getNodeField]
    rw [if_neg hbty, if_neg h1, if_neg h2, if_pos h3]
    simp
  · intro h1 h2 h3 h4
    simp only [getNodeField]
    rw [if_neg hbty, if_neg h1, if_neg h2, if_neg h3, if_pos h4]
    simp
  · intro h1 h2 h3 h4 h5
    simp only [getNodeField]
    rw [if_neg hbty, if_neg h1, if_neg h2, if_neg h3, if_neg h4, if_pos h5]
    exact ⟨rfl, rfl⟩
  · intro h1 h2 h3 h4 h5 h6
    simp only [getNodeField]
    rw [if_neg hbty, if_neg h1, if_neg h2, if_neg h3, if_neg h4, if_neg h5,
      if_pos h6]
    exact ⟨rfl, rfl⟩

/-- Concrete instantiation of C3 (amended): the counterexample node's main
stat comes from the client HTTP side. -/
theorem node_stat_projection_order_witness :
    (getNodeField 1 5
        { type := "Workload", clientHTTPRequestsSuccess := 5,
          serverTCPSentBytes := 10 } 10).mainStat.head? =
      some (fmt2 (((5 : ℚ) + 0) / 10) ++ "rps") :=
  (node_stat_projection_order
      { type := "Workload", clientHTTPRequestsSuccess := 5,
        serverTCPSentBytes := 10 } 1 5 10 (by decide)).2.2.1
    (by norm_num) (by norm_num) (by norm_num)

/-- Claim C2: an accepted sample (not excluded by filters, with a usable
response code) synthesizes exactly two edges — workload→service and
service→workload — carrying identical counters when neither workload is the
"waypoint" proxy, and exactly one direct workload→workload edge when either
workload is "waypoint". -/
theorem edge_synthesis_symmetry (m : Metric) (sf df : List String)
    (hfil : metricFiltered m sf df = false)
    (hhttp : lookupLabel m.labels "metric" = MetricHTTPRequests →
      lookupLabel m.labels "response_code" ≠ "") :
    (¬ (lookupLabel m.labels "source_workload" = "waypoint" ∨
        lookupLabel m.labels "destination_workload" = "waypoint") →
      ∃ a1 a2, metricsToEdges [m] sf df = some [a1, a2] ∧
        a1.sourceType = "Workload" ∧ a1.destinationType = "Service" ∧
        a2.sourceType = "Service" ∧ a2.destinationType = "Workload" ∧
        edgeCounters a1 = edgeCounters a2) ∧
    ((lookupLabel m.labels "source_workload" = "waypoint" ∨
        lookupLabel m.labels "destination_workload" = "waypoint") →
      ∃ a, metricsToEdges [m] sf df = some [a] ∧
        a.sourceType = "Workload" ∧ a.destinationType = "Workload") := by
  constructor
  · intro hw
    rw [not_or] at hw
    have hsw : (lookupLabel m.labels "source_workload" == "waypoint") = false := by
      simpa using hw.1
    have hdw : (lookupLabel m.labels "destination_workload" == "waypoint") = false := by
      simpa using hw.2
    have htmp : ∃ t1 t2, tmpEdges m = [t1, t2] ∧ t1.sourceType = "Workload" ∧
        t1.destinationType = "Service" ∧ t2.sourceType = "Service" ∧
        t2.destinationType = "Workload" ∧ edgeCounters t1 = edgeCounters t2 ∧
        t1.id ≠ t2.id := by
      simp only [tmpEdges, hsw, hdw, Bool.or_self, Bool.false_eq_true,
        if_false]
      refine ⟨_, _, rfl, rfl, rfl, rfl, rfl, rfl, ?_⟩
      intro hcontra
      have hd := congrArg String.data hcontra
      simp [String.data_append] at hd
    obtain ⟨t1, t2, htmp, hst1, hdt1, hst2, hdt2, hcnt, hne⟩ := htmp
    obtain ⟨a1, ha1⟩ :=
      Option.isSome_iff_exists.mp (accumulateMetric_isSome m t1 hhttp)
    obtain ⟨a2, ha2⟩ :=
      Option.isSome_iff_exists.mp (accumulateMetric_isSome m t2 hhttp)
    have hb : (a1.id == t2.id) = false := by
      rw [(accumulateMetric_shape m t1 a1 ha1).1]
      simpa using hne
    have hpm : processMetric sf df [] m = some [a1, a2] := by
      unfold processMetric
      rw [if_neg (by simp [hfil])]
      rw [htmp]
      have hbp : ¬ a1.id = t2.id := by simpa using hb
      simp [List.foldlM_cons, List.foldlM_nil, updateEdgeList, ha1, ha2, hb,
        hbp]
    refine ⟨a1, a2, ?_, ?_, ?_, ?_, ?_, ?_⟩
    · simp [metricsToEdges, List.foldlM_cons, List.foldlM_nil, hpm]
    · rw [(accumulateMetric_shape m t1 a1 ha1).2.2.1, hst1]
    · rw [(accumulateMetric_shape m t1 a1 ha1).2.2.2.2.2.2.1, hdt1]
    · rw [(accumulateMetric_shape m t2 a2 ha2).2.2.1, hst2]
    · rw [(accumulateMetric_shape m t2 a2 ha2).2.2.2.2.2.2.1, hdt2]
    · exact accumulateMetric_counters_eq m t1 t2 a1 a2 ha1 ha2 hcnt
  · intro hw
    have hwb : (lookupLabel m.labels "source_workload" == "waypoint" ||
        lookupLabel m.labels "destination_workload" == "waypoint") = true := by
      rcases hw with h | h <;> simp [h]
    have htmp : ∃ t, tmpEdges m = [t] ∧ t.sourceType = "Workload" ∧
        t.destinationType = "Workload" := by
      simp only [tmpEdges, hwb, if_true]
      exact ⟨_, rfl, rfl, rfl⟩
    obtain ⟨t, htmp, hst, hdt⟩ := htmp
    obtain ⟨a, ha⟩ :=
      Option.isSome_iff_exists.mp (accumulateMetric_isSome m t hhttp)
    have hpm : processMetric sf df [] m = some [a] := by
      unfold processMetric
      rw [if_neg (by simp [hfil])]
      rw [htmp]
      simp [List.foldlM_cons, List.foldlM_nil, updateEdgeList, ha]
    refine ⟨a, ?_, ?_, ?_⟩
    · simp [metricsToEdges, List.foldlM_cons, List.foldlM_nil, hpm]
    · rw [(accumulateMetric_shape m t a ha).2.2.1, hst]
    · rw [(accumulateMetric_shape m t a ha).2.2.2.2.2.2.1, hdt]

/-- Concrete instantiation of C2: a TCP sample between ordinary workloads
yields the two-legged synthesis with equal counters. -/
theorem edge_synthesis_symmetry_witness :
    ∃ a1 a2, metricsToEdges
        [⟨3, [("metric", "tcpSentBytes"), ("source_workload", "web"),
          ("source_workload_namespace", "ns1"),
          ("destination_service_name", "api"),
          ("destination_service_namespace", "ns1"),
          ("destination_workload", "api-v1"),
          ("destination_workload_namespace", "ns1")]⟩] [] [] = some [a1, a2] ∧
      a1.sourceType = "Workload" ∧ a1.destinationType = "Service" ∧
      a2.sourceType = "Service" ∧ a2.destinationType = "Workload" ∧
      edgeCounters a1 = edgeCounters a2 :=
  (edge_synthesis_symmetry
      ⟨3, [("metric", "tcpSentBytes"), ("source_workload", "web"),
        ("source_workload_namespace", "ns1"),
        ("destination_service_name", "api"),
        ("destination_service_namespace", "ns1"),
        ("destination_workload", "api-v1"),
        ("destination_workload_namespace", "ns1")]⟩ [] []
      (by decide) (by decide)).1 (by decide)

/-- Claim C8: the spec's end-to-end scenario.  Two HTTP samples (200/value 10
and 503/value 2) for `web (ns1) → api (ns1)` over a 10-second window produce a
workload→service edge displaying rate `1.20rps` and error `16.67%`, colored
warning with thresholds 1%/20% and critical with thresholds 1%/10%. -/
theorem end_to_end_scenario :
    ∃ a rest, metricsToEdges [c8m200, c8m503] [] [] = some (a :: rest) ∧
      a.id = "workload-web-ns1-service-api-ns1" ∧
      (getEdgeField 1 20 a 10).mainStat = ["1.20rps", "16.67%"] ∧
      (getEdgeField 1 20 a 10).color = colorWarning ∧
      (getEdgeField 1 10 a 10).color = colorCritical := by
  have l9 : lookupLabel c8m200.labels "response_code" = "200" := by decide
  have l9b : lookupLabel c8m503.labels "response_code" = "503" := by decide
  have lv : c8m200.value = 10 := rfl
  have lvb : c8m503.value = 2 := rfl
  have htmp : tmpEdges c8m200 =
      [{ id := "workload-web-ns1-service-api-ns1",
         source := "Workload: web (ns1)", sourceType := "Workload",
         sourceName := "web", sourceNamespace := "ns1",
         destination := "Service: api (ns1)", destinationType := "Service",
         destinationName := "api", destinationNamespace := "ns1",
         destinationService := "api.ns1.svc" },
       { id := "service-api-ns1-workload-api-v1-ns1",
         source := "Service: api (ns1)", sourceType := "Service",
         sourceName := "api", sourceNamespace := "ns1",
         destination := "Workload: api-v1 (ns1)", destinationType := "Workload",
         destinationName := "api-v1", destinationNamespace := "ns1",
         destinationService := "api.ns1.svc" }] := by decide
  have htmp2 : tmpEdges c8m503 = tmpEdges c8m200 := by decide
  have ha1 : accumulateMetric c8m200
      { id := "workload-web-ns1-service-api-ns1",
        source := "Workload: web (ns1)", sourceType := "Workload",
        sourceName := "web", sourceNamespace := "ns1",
        destination := "Service: api (ns1)", destinationType := "Service",
        destinationName := "api", destinationNamespace := "ns1",
        destinationService := "api.ns1.svc" } = some
      { id := "workload-web-ns1-service-api-ns1",
        source := "Workload: web (ns1)", sourceType := "Workload",
        sourceName := "web", sourceNamespace := "ns1",
        destination := "Service: api (ns1)", destinationType := "Service",
        destinationName := "api", destinationNamespace := "ns1",
        destinationService := "api.ns1.svc",
        httpResponseCodes := [("200", 10)], httpRequestsSuccess := 10 } := by
    rw [accumulateMetric_httpRequests_success c8m200 _ (by decide) (by decide)
      (by decide)]
    norm_num [l9, lv, bumpCode]
  have ha2 : accumulateMetric c8m200
      { id := "service-api-ns1-workload-api-v1-ns1",
        source := "Service: api (ns1)", sourceType := "Service",
        sourceName := "api", sourceNamespace := "ns1",
        destination := "Workload: api-v1 (ns1)", destinationType := "Workload",
        destinationName := "api-v1", destinationNamespace := "ns1",
        destinationService := "api.ns1.svc" } = some
      { id := "service-api-ns1-workload-api-v1-ns1",
        source := "Service: api (ns1)", sourceType := "Service",
        sourceName := "api", sourceNamespace := "ns1",
        destination := "Workload: api-v1 (ns1)", destinationType := "Workload",
        destinationName := "api-v1", destinationNamespace := "ns1",
        destinationService := "api.ns1.svc",
        httpResponseCodes := [("200", 10)], httpRequestsSuccess := 10 } := by
    rw [accumulateMetric_httpRequests_success c8m200 _ (by decide) (by decide)
      (by decide)]
    norm_num [l9, lv, bumpCode]
  have hpm1 : processMetric [] [] [] c8m200 = some
      [{ id := "workload-web-ns1-service-api-ns1",
         source := "Workload: web (ns1)", sourceType := "Workload",
         sourceName := "web", sourceNamespace := "ns1",
         destination := "Service: api (ns1)", destinationType := "Service",
         destinationName := "api", destinationNamespace := "ns1",
         destinationService := "api.ns1.svc",
         httpResponseCodes := [("200", 10)], httpRequestsSuccess := 10 },
       { id := "service-api-ns1-workload-api-v1-ns1",
         source := "Service: api (ns1)", sourceType := "Service",
         sourceName := "api", sourceNamespace := "ns1",
         destination := "Workload: api-v1 (ns1)", destinationType := "Workload",
         destinationName := "api-v1", destinationNamespace := "ns1",
         destinationService := "api.ns1.svc",
         httpResponseCodes := [("200", 10)], httpRequestsSuccess := 10 }] := by
    unfold processMetric
    rw [if_neg (by decide)]
    rw [htmp]
    simp [List.foldlM_cons, List.foldlM_nil, updateEdgeList, ha1, ha2]
  have ha3 : accumulateMetric c8m503
      { id := "workload-web-ns1-service-api-ns1",
        source := "Workload: web (ns1)", sourceType := "Workload",
        sourceName := "web", sourceNamespace := "ns1",
        destination := "Service: api (ns1)", destinationType := "Service",
        destinationName := "api", destinationNamespace := "ns1",
        destinationService := "api.ns1.svc",
        httpResponseCodes := [("200", 10)], httpRequestsSuccess := 10 } = some
      { id := "workload-web-ns1-service-api-ns1",
        source := "Workload: web (ns1)", sourceType := "Workload",
        sourceName := "web", sourceNamespace := "ns1",
        destination := "Service: api (ns1)", destinationType := "Service",
        destinationName := "api", destinationNamespace := "ns1",
        destinationService := "api.ns1.svc",
        httpResponseCodes := [("200", 10), ("503", 2)],
        httpRequestsSuccess := 10, httpRequestsError := 2 } := by
    rw [accumulateMetric_httpRequests_error c8m503 _ (by decide) (by decide)
      (by decide)]
    norm_num [l9b, lvb, bumpCode]
    decide
  have ha4 : accumulateMetric c8m503
      { id := "service-api-ns1-workload-api-v1-ns1",
        source := "Service: api (ns1)", sourceType := "Service",
        sourceName := "api", sourceNamespace := "ns1",
        destination := "Workload: api-v1 (ns1)", destinationType := "Workload",
        destinationName := "api-v1", destinationNamespace := "ns1",
        destinationService := "api.ns1.svc",
        httpResponseCodes := [("200", 10)], httpRequestsSuccess := 10 } = some
      { id := "service-api-ns1-workload-api-v1-ns1",
        source := "Service: api (ns1)", sourceType := "Service",
        sourceName := "api", sourceNamespace := "ns1",
        destination := "Workload: api-v1 (ns1)", destinationType := "Workload",
        destinationName := "api-v1", destinationNamespace := "ns1",
        destinationService := "api.ns1.svc",
        httpResponseCodes := [("200", 10), ("503", 2)],
        httpRequestsSuccess := 10, httpRequestsError := 2 } := by
    rw [accumulateMetric_httpRequests_error c8m503 _ (by decide) (by decide)
      (by decide)]
    norm_num [l9b, lvb, bumpCode]
    decide
  have hpm2 : processMetric [] []
      [{ id := "workload-web-ns1-service-api-ns1",
         source := "Workload: web (ns1)", sourceType := "Workload",
         sourceName := "web", sourceNamespace := "ns1",
         destination := "Service: api (ns1)", destinationType := "Service",
         destinationName := "api", destinationNamespace := "ns1",
         destinationService := "api.ns1.svc",
         httpResponseCodes := [("200", 10)], httpRequestsSuccess := 10 },
       { id := "service-api-ns1-workload-api-v1-ns1",
         source := "Service: api (ns1)", sourceType := "Service",
         sourceName := "api", sourceNamespace := "ns1",
         destination := "Workload: api-v1 (ns1)", destinationType := "Workload",
         destinationName := "api-v1", destinationNamespace := "ns1",
         destinationService := "api.ns1.svc",
         httpResponseCodes := [("200", 10)], httpRequestsSuccess := 10 }]
      c8m503 = some
      [{ id := "workload-web-ns1-service-api-ns1",
         source := "Workload: web (ns1)", sourceType := "Workload",
         sourceName := "web", sourceNamespace := "ns1",
         destination := "Service: api (ns1)", destinationType := "Service",
         destinationName := "api", destinationNamespace := "ns1",
         destinationService := "api.ns1.svc",
         httpResponseCodes := [("200", 10), ("503", 2)],
         httpRequestsSuccess := 10, httpRequestsError := 2 },
       { id := "service-api-ns1-workload-api-v1-ns1",
         source := "Service: api (ns1)", sourceType := "Service",
         sourceName := "api", sourceNamespace := "ns1",
         destination := "Workload: api-v1 (ns1)", destinationType := "Workload",
         destinationName := "api-v1", destinationNamespace := "ns1",
         destinationService := "api.ns1.svc",
         httpResponseCodes := [("200", 10), ("503", 2)],
         httpRequestsSuccess := 10, httpRequestsError := 2 }] := by
    unfold processMetric
    rw [if_neg (by decide)]
    rw [htmp2, htmp]
    simp [List.foldlM_cons, List.foldlM_nil, updateEdgeList, ha3, ha4]
  have hfull : metricsToEdges [c8m200, c8m503] [] [] = some
      [{ id := "workload-web-ns1-service-api-ns1",
         source := "Workload: web (ns1)", sourceType := "Workload",
         sourceName := "web", sourceNamespace := "ns1",
         destination := "Service: api (ns1)", destinationType := "Service",
         destinationName := "api", destinationNamespace := "ns1",
         destinationService := "api.ns1.svc",
         httpResponseCodes := [("200", 10), ("503", 2)],
         httpRequestsSuccess := 10, httpRequestsError := 2 },
       { id := "service-api-ns1-workload-api-v1-ns1",
         source := "Service: api (ns1)", sourceType := "Service",
         sourceName := "api", sourceNamespace := "ns1",
         destination := "Workload: api-v1 (ns1)", destinationType := "Workload",
         destinationName := "api-v1", destinationNamespace := "ns1",
         destinationService := "api.ns1.svc",
         httpResponseCodes := [("200", 10), ("503", 2)],
         httpRequestsSuccess := 10, httpRequestsError := 2 }] := by
    simp [metricsToEdges, List.foldlM_cons, List.foldlM_nil, hpm1, hpm2]
  have hfa : fmt2 ((6 : ℚ) / 5) = "1.20" := by
    have h := fmt2_eq_of_bounds ((6 : ℚ) / 5) 120 (by norm_num) (by norm_num)
      (by norm_num)
    simpa using h
  have hfb : fmt2 ((50 : ℚ) / 3) = "16.67" := by
    have h := fmt2_eq_of_bounds ((50 : ℚ) / 3) 1667 (by norm_num) (by norm_num)
      (by norm_num)
    simpa using h
  refine ⟨_, _, hfull, rfl, ?_, ?_, ?_⟩
  · simp only [getEdgeField]
    rw [if_pos (by norm_num)]
    norm_num [hfa, hfb]
    decide
  · rw [getEdgeField_color_http 1 20 10 _ (by norm_num)]
    norm_num
  · rw [getEdgeField_color_http 1 10 10 _ (by norm_num)]
    norm_num

/-! ### Node Aggregator lemmas (for C1) -/

theorem mergeNode_id (a b : Node) : (mergeNode a b).id = a.id := rfl

theorem sourceNodeOfEdge_id (e : Edge) : (sourceNodeOfEdge e).id = e.source := rfl

theorem destNodeOfEdge_id (e : Edge) : (destNodeOfEdge e).id = e.destination := rfl

/-- Reading the head entry of a node list. -/
theorem lookupNode_cons (x : Node) (rest : List Node) (id : String) :
    lookupNode (x :: rest) id =
      if x.id == id then some x else lookupNode rest id := by
  by_cases h : (x.id == id) = true
  · simp [lookupNode, List.find?_cons, h]
  · rw [Bool.not_eq_true] at h
    simp [lookupNode, List.find?_cons, h]

/-- Merging into a node list only changes the entry with the merged id. -/
theorem lookupNode_mergeIntoNodes (nodes : List Node) (n : Node) (id : String) :
    lookupNode (mergeIntoNodes nodes n) id =
      if id = n.id then (lookupNode nodes id).map (fun x => mergeNode x n)
      else lookupNode nodes id := by
  induction nodes with
  | nil =>
      simp only [mergeIntoNodes, lookupNode, List.find?_nil]
      split <;> rfl
  | cons x rest ih =>
      simp only [mergeIntoNodes]
      by_cases hx : (x.id == n.id) = true
      · rw [if_pos hx]
        rw [beq_iff_eq] at hx
        by_cases hid : id = n.id
        · have hxid : (x.id == id) = true := by rw [beq_iff_eq, hx, hid]
          rw [if_pos hid]
          rw [lookupNode_cons, lookupNode_cons]
          rw [show (mergeNode x n).id = x.id from rfl, hxid]
          rw [if_pos rfl, if_pos rfl]
          rfl
        · have hxid : (x.id == id) = false := by
            rw [hx]
            simpa using fun hcon => hid hcon.symm
          rw [if_neg hid]
          rw [lookupNode_cons, lookupNode_cons]
          rw [show (mergeNode x n).id = x.id from rfl, hxid]
          norm_num
      · rw [if_neg hx]
        rw [lookupNode_cons]
        by_cases hid : id = n.id
        · rw [if_pos hid, lookupNode_cons]
          by_cases hxid : (x.id == id) = true
          · exfalso
            rw [beq_iff_eq] at hxid
            exact hx (by rw [beq_iff_eq, hxid, ← hid])
          · rw [if_neg hxid, if_neg hxid, ih, if_pos hid]
        · rw [if_neg hid, lookupNode_cons]
          by_cases hxid : (x.id == id) = true
          · rw [if_pos hxid, if_pos hxid]
          · rw [if_neg hxid, if_neg hxid, ih, if_neg hid]

/-- Looking up after appending a single node. -/
theorem lookupNode_append_single (nodes : List Node) (n : Node) (id : String) :
    lookupNode (nodes ++ [n]) id =
      match lookupNode nodes id with
      | some x => some x
      | none => if n.id == id then some n else none := by
  induction nodes with
  | nil =>
      rw [List.nil_append, lookupNode_cons]
      have h0 : lookupNode ([] : List Node) id = none := rfl
      rw [h0]
      try rfl
  | cons x rest ih =>
      rw [List.cons_append, lookupNode_cons, lookupNode_cons, ih]
      by_cases h : (x.id == id) = true
      · rw [if_pos h, if_pos h]
        try rfl
      · rw [if_neg h, if_neg h]
        try rfl

/-- The characteristic equation of `insertNode`. -/
theorem lookupNode_insertNode (nodes : List Node) (n : Node) (id : String) :
    lookupNode (insertNode nodes n) id =
      if id = n.id then
        some (match lookupNode nodes id with
              | some x => mergeNode x n
              | none => n)
      else lookupNode nodes id := by
  unfold insertNode
  by_cases hany : (nodes.any fun x => x.id == n.id) = true
  · rw [if_pos hany, lookupNode_mergeIntoNodes]
    by_cases hid : id = n.id
    · rw [if_pos hid, if_pos hid]
      have hex : ∃ x, lookupNode nodes id = some x := by
        rw [List.any_eq_true] at hany
        obtain ⟨x, hx, hxn⟩ := hany
        refine Option.isSome_iff_exists.mp ?_
        rw [lookupNode, List.find?_isSome]
        exact ⟨x, hx, by rw [hid]; exact hxn⟩
      obtain ⟨x, hx⟩ := hex
      rw [hx]
      rfl
    · rw [if_neg hid, if_neg hid]
  · rw [if_neg hany, lookupNode_append_single]
    by_cases hid : id = n.id
    · rw [if_pos hid]
      have hnone : lookupNode nodes id = none := by
        rw [lookupNode]
        rw [List.find?_eq_none]
        intro x hx hcon
        rw [List.any_eq_true] at hany
        rw [beq_iff_eq] at hcon
        exact hany ⟨x, hx, by rw [beq_iff_eq, hcon, ← hid]⟩
      rw [hnone]
      rw [if_pos (by rw [beq_iff_eq, hid])]
    · rw [if_neg hid]
      cases hl : lookupNode nodes id with
      | some x => rfl
      | none =>
          have : (n.id == id) = false := by
            simpa using fun hcon => hid hcon.symm
          rw [this]
          rfl

/-- Unfolding one edge off the right end of `edgesToNodes`. -/
theorem edgesToNodes_append_single (es : List Edge) (e : Edge) :
    edgesToNodes (es ++ [e]) =
      insertNode (insertNode (edgesToNodes es) (sourceNodeOfEdge e))
        (destNodeOfEdge e) := by
  simp [edgesToNodes, List.foldl_append]

/-- An id absent from the aggregated nodes is no edge's endpoint. -/
theorem edgesToNodes_lookup_none (es : List Edge) (id : String) :
    lookupNode (edgesToNodes es) id = none →
    ∀ e ∈ es, ¬ e.source = id ∧ ¬ e.destination = id := by
  induction es using List.reverseRecOn with
  | nil => intro _ e he; simp at he
  | append_singleton es e ih =>
      intro h e' he'
      rw [edgesToNodes_append_single, lookupNode_insertNode] at h
      rw [destNodeOfEdge_id] at h
      by_cases hd : id = e.destination
      · rw [if_pos hd] at h; cases h
      · rw [if_neg hd] at h
        rw [lookupNode_insertNode, sourceNodeOfEdge_id] at h
        by_cases hs : id = e.source
        · rw [if_pos hs] at h; cases h
        · rw [if_neg hs] at h
          rcases List.mem_append.mp he' with he' | he'
          · exact ih h e' he'
          · have : e' = e := by simpa using he'
            rw [this]
            exact ⟨fun hc => hs hc.symm, fun hc => hd hc.symm⟩

/-- Master conservation lemma: any scalar node statistic that `mergeNode`
adds, and that the source/destination temporary nodes seed with `gs`/`gd`,
aggregates to the sum of per-edge contributions at that node's id. -/
theorem edgesToNodes_field_sum (f : Node → ℚ) (gs gd : Edge → ℚ)
    (hm : ∀ a b, f (mergeNode a b) = f a + f b)
    (hs : ∀ e, f (sourceNodeOfEdge e) = gs e)
    (hd : ∀ e, f (destNodeOfEdge e) = gd e) :
    ∀ (es : List Edge) (id : String) (n : Node),
      lookupNode (edgesToNodes es) id = some n →
      f n = (es.map (fun e =>
        (if e.source = id then gs e else 0) +
        (if e.destination = id then gd e else 0))).sum := by
  intro es
  induction es using List.reverseRecOn with
  | nil =>
      intro id n h
      have : lookupNode (edgesToNodes []) id = none := rfl
      rw [this] at h
      cases h
  | append_singleton es e ih =>
      intro id n h
      rw [edgesToNodes_append_single, lookupNode_insertNode,
        destNodeOfEdge_id] at h
      rw [List.map_append, List.sum_append]
      simp only [List.map_cons, List.map_nil, List.sum_cons, List.sum_nil,
        add_zero]
      have hzero : lookupNode (edgesToNodes es) id = none →
          (es.map (fun e =>
            (if e.source = id then gs e else 0) +
            (if e.destination = id then gd e else 0))).sum = 0 := by
        intro hn
        apply List.sum_eq_zero
        intro x hx
        rw [List.mem_map] at hx
        obtain ⟨e', he', hxe⟩ := hx
        obtain ⟨h1, h2⟩ := edgesToNodes_lookup_none es id hn e' he'
        rw [← hxe, if_neg h1, if_neg h2, add_zero]
      by_cases hdid : id = e.destination
      · rw [if_pos hdid] at h
        rw [lookupNode_insertNode, sourceNodeOfEdge_id] at h
        by_cases hsid : id = e.source
        · rw [if_pos hsid] at h
          cases hl : lookupNode (edgesToNodes es) id with
          | some x =>
              rw [hl] at h
              cases h
              rw [hm, hm, hs, hd, ih id x hl, if_pos hsid.symm,
                if_pos hdid.symm]
              ring
          | none =>
              rw [hl] at h
              cases h
              rw [hm, hs, hd, hzero hl, if_pos hsid.symm, if_pos hdid.symm]
              ring
        · rw [if_neg hsid] at h
          cases hl : lookupNode (edgesToNodes es) id with
          | some x =>
              rw [hl] at h
              cases h
              rw [hm, hd, ih id x hl, if_neg (fun hc => hsid hc.symm),
                if_pos hdid.symm]
              ring
          | none =>
              rw [hl] at h
              cases h
              rw [hd, hzero hl, if_neg (fun hc => hsid hc.symm),
                if_pos hdid.symm]
              ring
      · rw [if_neg hdid] at h
        rw [lookupNode_insertNode, sourceNodeOfEdge_id] at h
        by_cases hsid : id = e.source
        · rw [if_pos hsid] at h
          cases hl : lookupNode (edgesToNodes es) id with
          | some x =>
              rw [hl] at h
              cases h
              rw [hm, hs, ih id x hl, if_pos hsid.symm,
                if_neg (fun hc => hdid hc.symm)]
              ring
          | none =>
              rw [hl] at h
              cases h
              rw [hs, hzero hl, if_pos hsid.symm,
                if_neg (fun hc => hdid hc.symm)]
              ring
        · rw [if_neg hsid] at h
          rw [ih id n h, if_neg (fun hc => hsid hc.symm),
            if_neg (fun hc => hdid hc.symm)]
          ring

/-- Rewriting a sum of guarded contributions as a sum over the matching
sublist. -/
theorem sum_map_ite_eq_filter (es : List Edge) (q : Edge → Bool)
    (g : Edge → ℚ) :
    (es.map (fun e => if q e = true then g e else 0)).sum =
      ((es.filter q).map g).sum := by
  induction es with
  | nil => rfl
  | cons x rest ih =>
      by_cases h : q x = true <;> simp [List.filter_cons, h, ih]

/-- Claim C1: node conservation.  Every aggregated node's server-side totals
(gRPC success/error, HTTP success/error, gRPC sent/received messages, TCP
sent/received bytes) equal the sums of the corresponding counters over the
edges whose destination identity is that node, and its client-side totals
equal the sums over the edges whose source identity is that node. -/
theorem node_conservation (es : List Edge) (id : String) (n : Node)
    (h : lookupNode (edgesToNodes es) id = some n) :
    (n.serverGRPCRequestsSuccess = ((es.filter (fun e => e.destination == id)).map
      (fun e => e.grpcRequestsSuccess)).sum ∧
     n.serverGRPCRequestsError = ((es.filter (fun e => e.destination == id)).map
      (fun e => e.grpcRequestsError)).sum ∧
     n.serverGRPCSentMessages = ((es.filter (fun e => e.destination == id)).map
      (fun e => e.grpcSentMessages)).sum ∧
     n.serverGRPCReceivedMessages = ((es.filter (fun e => e.destination == id)).map
      (fun e => e.grpcReceivedMessages)).sum ∧
     n.serverHTTPRequestsSuccess = ((es.filter (fun e => e.destination == id)).map
      (fun e => e.httpRequestsSuccess)).sum ∧
     n.serverHTTPRequestsError = ((es.filter (fun e => e.destination == id)).map
      (fun e => e.httpRequestsError)).sum ∧
     n.serverTCPSentBytes = ((es.filter (fun e => e.destination == id)).map
      (fun e => e.tcpSentBytes)).sum ∧
     n.serverTCPReceivedBytes = ((es.filter (fun e => e.destination == id)).map
      (fun e => e.tcpReceivedBytes)).sum) ∧
    (n.clientGRPCRequestsSuccess = ((es.filter (fun e => e.source == id)).map
      (fun e => e.grpcRequestsSuccess)).sum ∧
     n.clientGRPCRequestsError = ((es.filter (fun e => e.source == id)).map
      (fun e => e.grpcRequestsError)).sum ∧
     n.clientGRPCSentMessages = ((es.filter (fun e => e.source == id)).map
      (fun e => e.grpcSentMessages)).sum ∧
     n.clientGRPCReceivedMessages = ((es.filter (fun e => e.source == id)).map
      (fun e => e.grpcReceivedMessages)).sum ∧
     n.clientHTTPRequestsSuccess = ((es.filter (fun e => e.source == id)).map
      (fun e => e.httpRequestsSuccess)).sum ∧
     n.clientHTTPRequestsError = ((es.filter (fun e => e.source == id)).map
      (fun e => e.httpRequestsError)).sum ∧
     n.clientTCPSentBytes = ((es.filter (fun e => e.source == id)).map
      (fun e => e.tcpSentBytes)).sum ∧
     n.clientTCPReceivedBytes = ((es.filter (fun e => e.source == id)).map
      (fun e => e.tcpReceivedBytes)).sum) := by
  constructor
  · refine ⟨?_, ?_, ?_, ?_, ?_, ?_, ?_, ?_⟩
    · have hh := edgesToNodes_field_sum (fun nd => nd.serverGRPCRequestsSuccess)
        (fun _ => 0) (fun e => e.grpcRequestsSuccess)
        (fun a b => rfl) (fun e => rfl) (fun e => rfl) es id n h
      simp only [] at hh
      rw [hh, ← sum_map_ite_eq_filter]
      simp [beq_iff_eq]
    · have hh := edgesToNodes_field_sum (fun nd => nd.serverGRPCRequestsError)
        (fun _ => 0) (fun e => e.grpcRequestsError)
        (fun a b => rfl) (fun e => rfl) (fun e => rfl) es id n h
      simp only [] at hh
      rw [hh, ← sum_map_ite_eq_filter]
      simp [beq_iff_eq]
    · have hh := edgesToNodes_field_sum (fun nd => nd.serverGRPCSentMessages)
        (fun _ => 0) (fun e => e.grpcSentMessages)
        (fun a b => rfl) (fun e => rfl) (fun e => rfl) es id n h
      simp only [] at hh
      rw [hh, ← sum_map_ite_eq_filter]
      simp [beq_iff_eq]
    · have hh := edgesToNodes_field_sum (fun nd => nd.serverGRPCReceivedMessages)
        (fun _ => 0) (fun e => e.grpcReceivedMessages)
        (fun a b => rfl) (fun e => rfl) (fun e => rfl) es id n h
      simp only [] at hh
      rw [hh, ← sum_map_ite_eq_filter]
      simp [beq_iff_eq]
    · have hh := edgesToNodes_field_sum (fun nd => nd.serverHTTPRequestsSuccess)
        (fun _ => 0) (fun e => e.httpRequestsSuccess)
        (fun a b => rfl) (fun e => rfl) (fun e => rfl) es id n h
      simp only [] at hh
      rw [hh, ← sum_map_ite_eq_filter]
      simp [beq_iff_eq]
    · have hh := edgesToNodes_field_sum (fun nd => nd.serverHTTPRequestsError)
        (fun _ => 0) (fun e => e.httpRequestsError)
        (fun a b => rfl) (fun e => rfl) (fun e => rfl) es id n h
      simp only [] at hh
      rw [hh, ← sum_map_ite_eq_filter]
      simp [beq_iff_eq]
    · have hh := edgesToNodes_field_sum (fun nd => nd.serverTCPSentBytes)
        (fun _ => 0) (fun e => e.tcpSentBytes)
        (fun a b => rfl) (fun e => rfl) (fun e => rfl) es id n h
      simp only [] at hh
      rw [hh, ← sum_map_ite_eq_filter]
      simp [beq_iff_eq]
    · have hh := edgesToNodes_field_sum (fun nd => nd.serverTCPReceivedBytes)
        (fun _ => 0) (fun e => e.tcpReceivedBytes)
        (fun a b => rfl) (fun e => rfl) (fun e => rfl) es id n h
      simp only [] at hh
      rw [hh, ← sum_map_ite_eq_filter]
      simp [beq_iff_eq]
  · refine ⟨?_, ?_, ?_, ?_, ?_, ?_, ?_, ?_⟩
    · have hh := edgesToNodes_field_sum (fun nd => nd.clientGRPCRequestsSuccess)
        (fun e => e.grpcRequestsSuccess) (fun _ => 0)
        (fun a b => rfl) (fun e => rfl) (fun e => rfl) es id n h
      simp only [] at hh
      rw [hh, ← sum_map_ite_eq_filter]
      simp [beq_iff_eq]
    · have hh := edgesToNodes_field_sum (fun nd => nd.clientGRPCRequestsError)
        (fun e => e.grpcRequestsError) (fun _ => 0)
        (fun a b => rfl) (fun e => rfl) (fun e => rfl) es id n h
      simp only [] at hh
      rw [hh, ← sum_map_ite_eq_filter]
      simp [beq_iff_eq]
    · have hh := edgesToNodes_field_sum (fun nd => nd.clientGRPCSentMessages)
        (fun e => e.grpcSentMessages) (fun _ => 0)
        (fun a b => rfl) (fun e => rfl) (fun e => rfl) es id n h
      simp only [] at hh
      rw [hh, ← sum_map_ite_eq_filter]
      simp [beq_iff_eq]
    · have hh := edgesToNodes_field_sum (fun nd => nd.clientGRPCReceivedMessages)
        (fun e => e.grpcReceivedMessages) (fun _ => 0)
        (fun a b => rfl) (fun e => rfl) (fun e => rfl) es id n h
      simp only [] at hh
      rw [hh, ← sum_map_ite_eq_filter]
      simp [beq_iff_eq]
    · have hh := edgesToNodes_field_sum (fun nd => nd.clientHTTPRequestsSuccess)
        (fun e => e.httpRequestsSuccess) (fun _ => 0)
        (fun a b => rfl) (fun e => rfl) (fun e => rfl) es id n h
      simp only [] at hh
      rw [hh, ← sum_map_ite_eq_filter]
      simp [beq_iff_eq]
    · have hh := edgesToNodes_field_sum (fun nd => nd.clientHTTPRequestsError)
        (fun e => e.httpRequestsError) (fun _ => 0)
        (fun a b => rfl) (fun e => rfl) (fun e => rfl) es id n h
      simp only [] at hh
      rw [hh, ← sum_map_ite_eq_filter]
      simp [beq_iff_eq]
    · have hh := edgesToNodes_field_sum (fun nd => nd.clientTCPSentBytes)
        (fun e => e.tcpSentBytes) (fun _ => 0)
        (fun a b => rfl) (fun e => rfl) (fun e => rfl) es id n h
      simp only [] at hh
      rw [hh, ← sum_map_ite_eq_filter]
      simp [beq_iff_eq]
    · have hh := edgesToNodes_field_sum (fun nd => nd.clientTCPReceivedBytes)
        (fun e => e.tcpReceivedBytes) (fun _ => 0)
        (fun a b => rfl) (fun e => rfl) (fun e => rfl) es id n h
      simp only [] at hh
      rw [hh, ← sum_map_ite_eq_filter]
      simp [beq_iff_eq]

/-- Concrete instantiation of C1: two edges into destination "b" with gRPC
success counts 3 and 4 aggregate to a node whose server gRPC success total is
their sum. -/
theorem node_conservation_witness :
    ∃ n, lookupNode (edgesToNodes
        [{ source := "a", destination := "b", grpcRequestsSuccess := 3 },
         { source := "c", destination := "b", grpcRequestsSuccess := 4 }])
        "b" = some n ∧
      n.serverGRPCRequestsSuccess =
        ((([({ source := "a", destination := "b",
               grpcRequestsSuccess := 3 } : Edge),
            { source := "c", destination := "b",
              grpcRequestsSuccess := 4 }].filter
          (fun e => e.destination == "b")).map
          (fun e => e.grpcRequestsSuccess)).sum) := by
  have hs1 : insertNode []
      ({ id := "a", clientGRPCRequestsSuccess := 3 } : Node) =
      [{ id := "a", clientGRPCRequestsSuccess := 3 }] := by
    simp [insertNode]
  have hd1 : insertNode [{ id := "a", clientGRPCRequestsSuccess := 3 }]
      ({ id := "b", serverGRPCRequestsSuccess := 3 } : Node) =
      [{ id := "a", clientGRPCRequestsSuccess := 3 },
       { id := "b", serverGRPCRequestsSuccess := 3 }] := by
    simp [insertNode]
  have hs2 : insertNode
      [{ id := "a", clientGRPCRequestsSuccess := 3 },
       { id := "b", serverGRPCRequestsSuccess := 3 }]
      ({ id := "c", clientGRPCRequestsSuccess := 4 } : Node) =
      [{ id := "a", clientGRPCRequestsSuccess := 3 },
       { id := "b", serverGRPCRequestsSuccess := 3 },
       { id := "c", clientGRPCRequestsSuccess := 4 }] := by
    simp [insertNode]
  have hd2 : insertNode
      [{ id := "a", clientGRPCRequestsSuccess := 3 },
       { id := "b", serverGRPCRequestsSuccess := 3 },
       { id := "c", clientGRPCRequestsSuccess := 4 }]
      ({ id := "b", serverGRPCRequestsSuccess := 4 } : Node) =
      [{ id := "a", clientGRPCRequestsSuccess := 3 },
       { id := "b", serverGRPCRequestsSuccess := 7 },
       { id := "c", clientGRPCRequestsSuccess := 4 }] := by
    simp [insertNode, mergeIntoNodes, mergeNode]
    norm_num
  have hlist : edgesToNodes
      [{ source := "a", destination := "b", grpcRequestsSuccess := 3 },
       { source := "c", destination := "b", grpcRequestsSuccess := 4 }] =
      [{ id := "a", clientGRPCRequestsSuccess := 3 },
       { id := "b", serverGRPCRequestsSuccess := 7 },
       { id := "c", clientGRPCRequestsSuccess := 4 }] := by
    simp only [edgesToNodes, List.foldl_cons, List.foldl_nil]
    rw [show sourceNodeOfEdge
        { source := "a", destination := "b", grpcRequestsSuccess := 3 } =
      ({ id := "a", clientGRPCRequestsSuccess := 3 } : Node) from rfl]
    rw [show destNodeOfEdge
        { source := "a", destination := "b", grpcRequestsSuccess := 3 } =
      ({ id := "b", serverGRPCRequestsSuccess := 3 } : Node) from rfl]
    rw [show sourceNodeOfEdge
        { source := "c", destination := "b", grpcRequestsSuccess := 4 } =
      ({ id := "c", clientGRPCRequestsSuccess := 4 } : Node) from rfl]
    rw [show destNodeOfEdge
        { source := "c", destination := "b", grpcRequestsSuccess := 4 } =
      ({ id := "b", serverGRPCRequestsSuccess := 4 } : Node) from rfl]
    rw [hs1, hd1, hs2, hd2]
  have hn : lookupNode (edgesToNodes
      [{ source := "a", destination := "b", grpcRequestsSuccess := 3 },
       { source := "c", destination := "b", grpcRequestsSuccess := 4 }])
      "b" = some { id := "b", serverGRPCRequestsSuccess := 7 } := by
    rw [hlist]
    simp [lookupNode_cons]
  exact ⟨_, hn, (node_conservation _ "b" _ hn).1.1⟩

/-- Concrete instantiation of C7: a two-sample input whose second sample
repeats the first's label map (in another order) collapses to the first
sample, and deduplication is idempotent there. -/
theorem deduplicateMetrics_idempotent_first_witness :
    deduplicateMetrics (deduplicateMetrics
        [⟨10, [("a", "1"), ("b", "2")]⟩, ⟨20, [("b", "2"), ("a", "1")]⟩]) =
      deduplicateMetrics
        [⟨10, [("a", "1"), ("b", "2")]⟩, ⟨20, [("b", "2"), ("a", "1")]⟩] ∧
    [(⟨10, [("a", "1"), ("b", "2")]⟩ : Metric), ⟨20, [("b", "2"), ("a", "1")]⟩].find?
        (fun y => labelsEqv y.labels [("a", "1"), ("b", "2")]) =
      some ⟨10, [("a", "1"), ("b", "2")]⟩ := by
  refine ⟨(deduplicateMetrics_idempotent_first _).1, ?_⟩
  exact (deduplicateMetrics_idempotent_first _).2.1
    ⟨10, [("a", "1"), ("b", "2")]⟩ (by decide)

end IstioGraph
